import Mathlib

/-!
# FilamentDryerESP12E dashboard script (`arduino_code/data/script.js`)

A shallow embedding of the browser-side dashboard script: the rolling chart
buffers, the profile catalog loader, the WebSocket handlers, the projection of
a device snapshot onto the page and the three operator commands.

Conventions of the embedding.

* JavaScript values that reach the script through `JSON.parse` or
  `response.json()` are values of `Json`; a missing property (`undefined`) is
  `none` of `JsVal = Option Json`.
* A JavaScript function that mutates the globals or the page becomes a function
  on `State`; one that can throw yields a `Run`: the state reached, and whether
  the call returned or threw. The state reached by a call that throws keeps
  every write made before the throw, as in JavaScript.
* What the script obtains from its environment (the clock, the responses of
  the server, whether `ws.send` throws, which elements the page has) is an
  explicit argument or a field of the state.
* A finite number is the rational its double stands for. The divisions of
  `updateTimer` round their quotient to a double (`roundDouble`); the progress
  percentage is kept as its operands and evaluated in exact arithmetic.
-/

namespace FilamentDryer

/-! ## Values -/

/-- A JavaScript number: `NaN`, the two infinities, or a finite value. -/
inductive JsNum where
  | nan
  | posInf
  | negInf
  | fin (q : ℚ)
deriving DecidableEq, Repr

/-- A value produced by `JSON.parse`. -/
inductive Json where
  | null
  | bool (b : Bool)
  | num (x : JsNum)
  | str (s : String)
  | arr (items : List Json)
  | obj (fields : List (String × Json))

/-- A JavaScript value as the script sees it: `none` is `undefined`. -/
abbrev JsVal := Option Json

/-- How a call ended. -/
inductive Outcome where
  | returned
  | threw
deriving DecidableEq, Repr

/-- The own property `key` of a parsed object; a later duplicate key wins. -/
def ownProperty (fields : List (String × Json)) (key : String) : JsVal :=
  (fields.reverse.find? (fun kv => kv.1 == key)).map (fun kv => kv.2)

/-- The expression `v.key` for one of the data property names the script reads
(`temperature`, `humidity`, `duration`, ...): `none` when it throws a TypeError
(`v` is `null` or `undefined`), otherwise the value read, `undefined` on
anything but an object that has the key. -/
def getField (v : JsVal) (key : String) : Option JsVal :=
  match v with
  | none => none
  | some .null => none
  | some (.obj fields) => some (ownProperty fields key)
  | some _ => some none

mutual
/-- Whether converting the value to a primitive (`ToString` in a template
literal, `ToNumber` in arithmetic) throws: a parsed object whose own `toString`
property shadows `Object.prototype.toString` has no callable conversion, and an
array is joined element by element. -/
def convThrows : Json → Bool
  | .obj fields => fields.any (fun kv => kv.1 == "toString")
  | .arr items => convThrowsList items
  | _ => false
/-- Some element of the array throws when converted. -/
def convThrowsList : List Json → Bool
  | [] => false
  | x :: xs => convThrows x || convThrowsList xs
end

/-- The conversion check on a possibly `undefined` value. -/
def valThrows : JsVal → Bool
  | none => false
  | some j => convThrows j

/-- JavaScript truthiness (`if (v)`, `!v`). -/
def truthy : JsVal → Bool
  | none => false
  | some .null => false
  | some (.bool b) => b
  | some (.num .nan) => false
  | some (.num (.fin q)) => q != 0
  | some (.num _) => true
  | some (.str s) => s != ""
  | some _ => true

/-! ## Rolling chart buffers -/

/-- The constant `maxDataPoints`. -/
def maxDataPoints : Nat := 60

/-- The data of `temperatureChart`: `data.labels`, `data.datasets[0].data`
(current temperature) and `data.datasets[1].data` (target temperature). -/
structure TemperatureChart where
  labels : List String
  actual : List JsVal
  target : List JsVal

/-- The data of `humidityChart`: `data.labels` and `data.datasets[0].data`. -/
structure HumidityChart where
  labels : List String
  data : List JsVal

/-- The statement pair `a.push(v); a.shift()`. -/
def pushShift {α : Type} (a : List α) (v : α) : List α :=
  (a ++ [v]).drop 1

/-! ## The globals and the page -/

/-- The `textContent` of a status element. `x.toFixed(1)` is kept as the
number it formats: the digits of a floating-point number are not modelled. -/
inductive Content where
  | initial
  | fixed1 (x : JsNum)
  | value (v : JsVal)

/-- The `textContent` of `#remaining-time`: the `HH:MM:SS` string for a
non-negative integer number of seconds whose hours are below `2 ^ 53`; for any
other value the text built from its floating-point parts is kept as the value
it was built from. -/
inductive TimerText where
  | initial
  | hms (text : String)
  | ofValue (v : JsVal)

/-- The `style.width` of `#progress-bar`: the template `${progress}%` with
`progress = 100 - (remainingSeconds / (duration * 60)) * 100`, kept as its two
operands. -/
inductive BarWidth where
  | initial
  | percent (remainingSeconds : JsVal) (duration : JsVal)

/-- The value of the global `dryingDuration`: `0` at load, later
`profiles[profileIndex].duration * 60` kept as its operand. -/
inductive DryingDuration where
  | zero
  | minutesTimes60 (duration : JsVal)

/-- A command object handed to `ws.send(JSON.stringify(command))`. -/
inductive Command where
  | startProfile (profileIndex : Nat)
  | setTemperature (temperature : JsNum)
  | stopDrying

/-- The globals of the script, the part of the page it reads and writes, and
the effects it has on its environment. An element of the page is `none` when
`document.getElementById` does not find it. Console output is not recorded. -/
structure State where
  /-- `temperatureChart`, `undefined` until `initCharts` creates it -/
  temperatureChart : Option TemperatureChart
  /-- `humidityChart` -/
  humidityChart : Option HumidityChart
  /-- `profiles` -/
  profiles : JsVal
  /-- `dryingStartTime`, seconds -/
  dryingStartTime : Nat
  /-- `dryingDuration` -/
  dryingDuration : DryingDuration
  /-- `isConnected` -/
  isConnected : Bool
  /-- whether `window.Chart` is defined -/
  chartLib : Bool
  /-- whether `#temperature-chart` exists -/
  tempCanvas : Bool
  /-- whether `#humidity-chart` exists -/
  humCanvas : Bool
  /-- `#current-temp` -/
  currentTemp : Option Content
  /-- `#current-humidity` -/
  currentHumidity : Option Content
  /-- `#target-temp` -/
  targetTemp : Option Content
  /-- `#heater-power` -/
  heaterPower : Option Content
  /-- `style.display` of `#timer-panel` -/
  timerPanel : Option String
  /-- `#remaining-time` -/
  remainingTime : Option TimerText
  /-- `#progress-bar` -/
  progressBar : Option BarWidth
  /-- whether `#profiles-list` exists -/
  profilesList : Bool
  /-- the `.profile-card` elements, the children of `#profiles-list`, each
  with whether its class list holds `active` -/
  cards : List Bool
  /-- text and `connected` flag of `#connection-status` -/
  connectionStatus : Option (String × Bool)
  /-- messages shown with `alert` -/
  alerts : List String
  /-- commands handed to `ws.send`, oldest first -/
  sent : List Command
  /-- URLs passed to `fetch`, oldest first -/
  requests : List String
  /-- delays of the pending `setTimeout(initWebSocket, delay)` callbacks -/
  timers : List Nat
  /-- WebSocket objects that carry the handlers of `initWebSocket` and have
  not fired `close` yet -/
  sockets : Nat
  /-- number of assignments made to `profiles` -/
  assignments : Nat

/-- The result of a call: the state reached and how the call ended. -/
structure Run where
  state : State
  outcome : Outcome

/-- The globals as the script declares them, on a page that has every element
the script looks up and the chart library loaded. -/
def State.pageLoad : State where
  temperatureChart := none
  humidityChart := none
  profiles := some (.arr [])
  dryingStartTime := 0
  dryingDuration := .zero
  isConnected := false
  chartLib := true
  tempCanvas := true
  humCanvas := true
  currentTemp := some .initial
  currentHumidity := some .initial
  targetTemp := some .initial
  heaterPower := some .initial
  timerPanel := some ""
  remainingTime := some .initial
  progressBar := some .initial
  profilesList := true
  cards := []
  connectionStatus := some ("", false)
  alerts := []
  sent := []
  requests := []
  timers := []
  sockets := 0
  assignments := 0

/-! ## `initCharts` and `updateCharts` -/

/-- The function `initCharts`: nothing is created when the chart library is
missing or a canvas is not found; otherwise both charts are created with
`Array(maxDataPoints).fill("")` labels and `Array(maxDataPoints).fill(null)`
data. The styling options are not modelled. -/
def initCharts (s : State) : State :=
  if !s.chartLib then s
  else if !s.tempCanvas || !s.humCanvas then s
  else
    { s with
      temperatureChart := some
        { labels := List.replicate maxDataPoints ""
          actual := List.replicate maxDataPoints (some Json.null)
          target := List.replicate maxDataPoints (some Json.null) }
      humidityChart := some
        { labels := List.replicate maxDataPoints ""
          data := List.replicate maxDataPoints (some Json.null) } }

/-- The function `updateCharts(data)`, in its second definition, which is the
one bound to the name when the script runs. `timestamp` is
`new Date().toLocaleTimeString()`. With `data` being `null` the first
`data.temperature` throws, after the temperature labels were pushed and
shifted. `chart.update()` only redraws. -/
def updateCharts (timestamp : String) (data : Json) (s : State) : Run :=
  match s.temperatureChart, s.humidityChart with
  | some tc, some hc =>
    let labels := pushShift tc.labels timestamp
    match getField (some data) "temperature",
          getField (some data) "targetTemperature",
          getField (some data) "humidity" with
    | some t, some tt, some h =>
      { state :=
          { s with
            temperatureChart := some
              { labels := labels
                actual := pushShift tc.actual t
                target := pushShift tc.target tt }
            humidityChart := some
              { labels := pushShift hc.labels timestamp
                data := pushShift hc.data h } }
        outcome := .returned }
    | some t, some tt, none =>
      { state :=
          { s with
            temperatureChart := some
              { labels := labels
                actual := pushShift tc.actual t
                target := pushShift tc.target tt }
            humidityChart := some { hc with labels := pushShift hc.labels timestamp } }
        outcome := .threw }
    | some t, none, _ =>
      { state :=
          { s with
            temperatureChart := some
              { labels := labels, actual := pushShift tc.actual t, target := tc.target } }
        outcome := .threw }
    | none, _, _ =>
      { state :=
          { s with
            temperatureChart := some
              { labels := labels, actual := tc.actual, target := tc.target } }
        outcome := .threw }
  | _, _ => { state := s, outcome := .returned }

/-- The state after `updateCharts` has handled the calls of `inputs` one after
the other, each a timestamp and a snapshot, whether or not a call threw. -/
def runCharts (s : State) (inputs : List (String × Json)) : State :=
  inputs.foldl (fun st i => (updateCharts i.1 i.2 st).state) s

/-- A parsed snapshot object with the given fields. -/
def snapshot (temperature targetTemperature humidity heaterPower
    dryingActive remainingTime : Json) : Json :=
  .obj [("temperature", temperature), ("targetTemperature", targetTemperature),
        ("humidity", humidity), ("heaterPower", heaterPower),
        ("dryingActive", dryingActive), ("remainingTime", remainingTime)]

/-- The lengths of the five rolling arrays (temperature labels, current
temperature, target temperature, humidity labels, humidity), when both charts
exist. -/
def bufferLengths (s : State) : Option (Nat × Nat × Nat × Nat × Nat) :=
  match s.temperatureChart, s.humidityChart with
  | some tc, some hc =>
    some (tc.labels.length, tc.actual.length, tc.target.length,
          hc.labels.length, hc.data.length)
  | _, _ => none

/-- The three data series (current temperature, target temperature,
humidity), when both charts exist. -/
def dataSeries (s : State) : Option (List JsVal × List JsVal × List JsVal) :=
  match s.temperatureChart, s.humidityChart with
  | some tc, some hc => some (tc.actual, tc.target, hc.data)
  | _, _ => none

/-- The calls of `updateCharts` for a sequence of snapshot objects, each given
by its timestamp and its fields. -/
def snapshotCalls (snaps : List (String × List (String × Json))) :
    List (String × Json) :=
  snaps.map (fun p => (p.1, Json.obj p.2))

/-- The values pushed for one field by a sequence of snapshot objects. -/
def pushedValues (key : String) (snaps : List (String × List (String × Json))) :
    List JsVal :=
  snaps.map (fun p => ownProperty p.2 key)

/-- A sequence of `n` snapshot objects whose temperature counts up from 0. -/
def countingSnapshots (n : Nat) : List (String × List (String × Json)) :=
  (List.range n).map (fun (i : Nat) =>
    (toString i, [("temperature", Json.num (.fin (i : ℚ))),
                  ("targetTemperature", Json.num (.fin 45)),
                  ("humidity", Json.num (.fin 30))]))

/-! ## Numbers and strings -/

/-- The global function `isNaN` on a number. -/
def JsNum.isNaN : JsNum → Bool
  | .nan => true
  | _ => false

/-- The comparison `a < b` of two numbers: false as soon as one is `NaN`. -/
def JsNum.lt : JsNum → JsNum → Bool
  | .nan, _ => false
  | _, .nan => false
  | .negInf, .negInf => false
  | .negInf, _ => true
  | _, .negInf => false
  | .posInf, _ => false
  | .fin _, .posInf => true
  | .fin p, .fin q => decide (p < q)

/-- The non-negative integer a value is, if it is one. -/
def natOf : JsVal → Option Nat
  | some (.num (.fin q)) => if q.den = 1 ∧ 0 ≤ q.num then some q.num.toNat else none
  | _ => none

/-- The method `String.prototype.padStart(targetLength, padString)`: the string
itself when it is long enough or the pad string is empty, otherwise the pad
string repeated and cut to the missing length, then the string. Lengths are
counted in characters, which are the UTF-16 units for the numerals and the
pad string `"0"` the script passes. -/
def padStart (s : String) (targetLength : Nat) (padString : String) : String :=
  if targetLength ≤ s.length ∨ padString.length = 0 then s
  else
    let fillLen := targetLength - s.length
    String.mk (((List.replicate fillLen padString.data).flatten).take fillLen) ++ s

/-- Round a rational to the nearest integer, a tie to the even one. -/
def roundHalfEven (m : ℚ) : ℤ :=
  if Int.fract m < 1 / 2 then ⌊m⌋
  else if 1 / 2 < Int.fract m then ⌊m⌋ + 1
  else if ⌊m⌋ % 2 = 0 then ⌊m⌋ else ⌊m⌋ + 1

/-- The double nearest to `q` (IEEE 754 binary64, round to nearest, ties to
even), for `|q|` below the overflow threshold `2 ^ 1024`: the significand has
53 bits, and below `2 ^ -1022` the spacing stays that of the subnormal
numbers. It is the result of an arithmetic operation whose exact result is
`q`. -/
def roundDouble (q : ℚ) : ℚ :=
  if q = 0 then 0
  else
    let ulp : ℚ := 2 ^ (max (Int.log 2 |q|) (-1022) - 52)
    roundHalfEven (q / ulp) * ulp

/-- The expression `Math.floor(a / b)` for non-negative integers `a` and
`b ≠ 0` held in doubles: the quotient is rounded to a double, then floored. -/
def floorDiv (a b : Nat) : Nat :=
  ⌊roundDouble ((a : ℚ) / (b : ℚ))⌋₊

/-- The template string `timeString` of `updateTimer` for a non-negative
integer `remainingSeconds`. The two divisions are divisions of doubles; `%` on
doubles is exact. `n.toString()` is the decimal numeral of `n` for an integer
below `2 ^ 53`; `updateTimer` uses this string only when the hours are below
that bound (the minutes and seconds always are). -/
def timeString (remainingSeconds : Nat) : String :=
  let hours := floorDiv remainingSeconds 3600
  let minutes := floorDiv (remainingSeconds % 3600) 60
  let seconds := remainingSeconds % 60
  padStart (toString hours) 2 "0" ++ ":" ++ padStart (toString minutes) 2 "0"
    ++ ":" ++ padStart (toString seconds) 2 "0"

/-- The UTF-16 code units of a string, each given as the character it belongs
to: a character outside the basic plane takes two units. -/
def utf16Units (s : String) : List Char :=
  (s.data.map (fun c => if c.toNat < 65536 then [c] else [c, c])).flatten

/-- The expression `v[i]` for an index `i`: `none` when it throws a TypeError
(`v` is `null` or `undefined`), otherwise the element, `undefined` where there
is none. A string is indexed by UTF-16 code unit; the one-unit string read is
kept as the string of the character the unit belongs to (half of a surrogate
pair is not a string of the model). -/
def getIndex (v : JsVal) (i : Nat) : Option JsVal :=
  match v with
  | none => none
  | some .null => none
  | some (.arr items) => some items[i]?
  | some (.obj fields) => some (ownProperty fields (toString i))
  | some (.str s) => some (((utf16Units s)[i]?).map (fun c => Json.str (String.singleton c)))
  | some _ => some none

/-! ## The three commands -/

/-- The function `startProfile(profileIndex)`. `sendThrows` tells whether
`ws.send` throws, `now` is `Date.now()` in milliseconds. Everything after the
connection guard runs inside `try`, so the function never throws. -/
def startProfile (profileIndex : Nat) (sendThrows : Bool) (now : Nat) (s : State) :
    State :=
  if !s.isConnected then
    { s with alerts := s.alerts ++ ["Not connected to the dryer. Please refresh the page."] }
  else if sendThrows then
    { s with alerts := s.alerts ++ ["Failed to start drying. Please try again."] }
  else
    let s1 :=
      { s with
        sent := s.sent ++ [Command.startProfile profileIndex]
        cards := s.cards.mapIdx (fun index _ => index == profileIndex) }
    match (getIndex s1.profiles profileIndex).bind (fun p => getField p "duration") with
    | none => { s1 with alerts := s1.alerts ++ ["Failed to start drying. Please try again."] }
    | some duration =>
      if valThrows duration then
        { s1 with alerts := s1.alerts ++ ["Failed to start drying. Please try again."] }
      else
        { s1 with
          dryingDuration := .minutesTimes60 duration
          dryingStartTime := now / 1000 }

/-- The function `setManualTemperature(temperature)`. -/
def setManualTemperature (temperature : JsNum) (sendThrows : Bool) (s : State) : State :=
  if !s.isConnected then
    { s with alerts := s.alerts ++ ["Not connected to the dryer. Please refresh the page."] }
  else if sendThrows then
    { s with alerts := s.alerts ++ ["Failed to set temperature. Please try again."] }
  else
    { s with
      sent := s.sent ++ [Command.setTemperature temperature]
      cards := s.cards.map (fun _ => false) }

/-- The function `stopDrying()`. -/
def stopDrying (sendThrows : Bool) (s : State) : State :=
  if !s.isConnected then
    { s with alerts := s.alerts ++ ["Not connected to the dryer. Please refresh the page."] }
  else if sendThrows then
    { s with alerts := s.alerts ++ ["Failed to stop drying. Please try again."] }
  else
    { s with
      sent := s.sent ++ [Command.stopDrying]
      cards := s.cards.map (fun _ => false) }

/-- The click handler of `#set-temp-btn` installed by `setupEventListeners`.
`manualTemp` is `none` when `#manual-temp` is not found, otherwise the number
`Number.parseFloat(tempInput.value)`. -/
def setTempClick (manualTemp : Option JsNum) (sendThrows : Bool) (s : State) : State :=
  match manualTemp with
  | none => s
  | some temperature =>
    if temperature.isNaN || temperature.lt (.fin 30) || (JsNum.fin 80).lt temperature then
      { s with
        alerts := s.alerts ++ ["Please enter a valid temperature between 30°C and 80°C"] }
    else setManualTemperature temperature sendThrows s

/-- A number with `30 ≤ t ≤ 80`: finite, so neither `NaN` nor an infinity. -/
def inRange : JsNum → Prop
  | .fin q => 30 ≤ q ∧ q ≤ 80
  | _ => False

instance : DecidablePred inRange := fun t =>
  match t with
  | .fin q => inferInstanceAs (Decidable (30 ≤ q ∧ q ≤ 80))
  | .nan => inferInstanceAs (Decidable False)
  | .posInf => inferInstanceAs (Decidable False)
  | .negInf => inferInstanceAs (Decidable False)

/-! ## The profile catalog -/

/-- What a `fetch` of an endpoint yields: the request fails, or a response
arrives with its `ok` flag and its body, `none` when the body is not JSON. -/
inductive Response where
  | networkError
  | http (ok : Bool) (body : Option Json)

/-- The value handed to the second `then` of a fetch chain: the parsed body of
a response with `ok` set. In every other case the chain rejects: `fetch`
rejected, the first `then` threw on `!response.ok`, or `response.json()`
rejected. -/
def Response.parsed : Response → Option Json
  | .http true (some body) => some body
  | _ => none

/-- The request failed at the HTTP level: a network error or a status outside
2xx. -/
def Response.failed : Response → Bool
  | .networkError => true
  | .http ok _ => !ok

/-- The constant `fallbackProfiles` of `loadProfilesDirectly`. -/
def fallbackProfiles : Json :=
  .arr
    [ .obj [("name", .str "PLA"), ("temperature", .num (.fin 45)), ("duration", .num (.fin 240))],
      .obj [("name", .str "PETG"), ("temperature", .num (.fin 65)), ("duration", .num (.fin 240))],
      .obj [("name", .str "ABS/ASA"), ("temperature", .num (.fin 70)), ("duration", .num (.fin 300))],
      .obj [("name", .str "Nylon"), ("temperature", .num (.fin 75)), ("duration", .num (.fin 360))],
      .obj [("name", .str "TPU"), ("temperature", .num (.fin 50)), ("duration", .num (.fin 240))] ]

/-- A catalog of two profiles, as the device would serve it. -/
def twoProfiles : Json :=
  .arr
    [ .obj [("name", .str "PLA"), ("temperature", .num (.fin 45)), ("duration", .num (.fin 240))],
      .obj [("name", .str "PETG"), ("temperature", .num (.fin 65)), ("duration", .num (.fin 240))] ]

/-- The test `profiles.length === 0` of `renderProfiles` on a truthy value. -/
def lengthIsZero : JsVal → Bool
  | some (.arr items) => items.isEmpty
  | some (.str s) => s.length == 0
  | some (.obj fields) =>
    match ownProperty fields "length" with
    | some (.num (.fin q)) => q == 0
    | _ => false
  | _ => false

/-- Whether building the card of one profile throws: `profile.name` on `null`,
or the conversion of `profile.name` or `profile.temperature` to a string in the
template, or of `profile.duration` to a number in `formatDuration`. -/
def cardThrows (profile : Json) : Bool :=
  match getField (some profile) "name", getField (some profile) "temperature",
        getField (some profile) "duration" with
  | some name, some temperature, some duration =>
    valThrows name || valThrows temperature || valThrows duration
  | _, _, _ => true

/-- The callback of `profiles.forEach` in `renderProfiles`, over the remaining
profiles: each card is appended without the `active` class; a throw leaves the
cards appended so far. The text of a card is not modelled. -/
def renderCards : List Json → State → Run
  | [], s => { state := s, outcome := .returned }
  | profile :: rest, s =>
    if cardThrows profile then { state := s, outcome := .threw }
    else renderCards rest { s with cards := s.cards ++ [false] }

/-- The function `renderProfiles()`. The "No profiles available" element has
the class `profile-card` too. A truthy `profiles` that is not an array has no
`forEach` method, and the call throws. -/
def renderProfiles (s : State) : Run :=
  if !s.profilesList then { state := s, outcome := .returned }
  else if !truthy s.profiles || lengthIsZero s.profiles then
    { state := { s with cards := [false] }, outcome := .returned }
  else
    match s.profiles with
    | some (.arr items) => renderCards items { s with cards := [] }
    | _ => { state := { s with cards := [] }, outcome := .threw }

/-- The statement pair `profiles = data; renderProfiles()`. -/
def assignAndRender (data : Json) (s : State) : Run :=
  renderProfiles { s with profiles := some data, assignments := s.assignments + 1 }

/-- The function `loadProfilesDirectly()`, with the promise chains run to
completion: `respA` is what `fetch("/debug/profiles")` yields and `respB` what
`fetch("/profiles")` yields if it is requested. Each `catch` is attached after
the `then` that assigns and renders, so it also handles a throw of
`renderProfiles`. The outcome is `threw` when the last promise is rejected. -/
def loadProfilesDirectly (respA respB : Response) (s : State) : Run :=
  let useFallback (s : State) : Run := assignAndRender fallbackProfiles s
  let tryRegular (s : State) : Run :=
    let s := { s with requests := s.requests ++ ["/profiles"] }
    match respB.parsed with
    | some data =>
      match assignAndRender data s with
      | { state := s, outcome := .threw } => useFallback s
      | r => r
    | none => useFallback s
  let s := { s with requests := s.requests ++ ["/debug/profiles"] }
  match respA.parsed with
  | some data =>
    match assignAndRender data s with
    | { state := s, outcome := .threw } => tryRegular s
    | r => r
  | none => tryRegular s

/-! ## Projection of a snapshot onto the page -/

/-- The function `updateTimer(remainingSeconds)`. The division
`remainingSeconds / 3600` converts the argument to a number first and throws
if that conversion does. The active card is the first `.profile-card.active`
element and `profileIndex` its position among the cards; reading
`profiles[profileIndex].duration` throws when the catalog has no such entry.
An assignment to `style.width` is recorded as made. -/
def updateTimer (remainingSeconds : JsVal) (s : State) : Run :=
  if valThrows remainingSeconds then { state := s, outcome := .threw }
  else
    let text :=
      match natOf remainingSeconds with
      | some n =>
        if floorDiv n 3600 < 2 ^ 53 then TimerText.hms (timeString n)
        else TimerText.ofValue remainingSeconds
      | none => TimerText.ofValue remainingSeconds
    let s := { s with remainingTime := s.remainingTime.map (fun _ => text) }
    match s.progressBar with
    | none => { state := s, outcome := .returned }
    | some _ =>
      match s.cards.findIdx? (fun active => active) with
      | none => { state := s, outcome := .returned }
      | some profileIndex =>
        match (getIndex s.profiles profileIndex).bind (fun p => getField p "duration") with
        | none => { state := s, outcome := .threw }
        | some duration =>
          if valThrows duration then { state := s, outcome := .threw }
          else
            { state := { s with progressBar := some (.percent remainingSeconds duration) }
              outcome := .returned }

/-- The call `v.toFixed(1)` on the result of a property read: `none` when the
read threw or the value is not a number (it has no `toFixed` method). -/
def toFixed1 : Option JsVal → Option Content
  | some (some (.num x)) => some (.fixed1 x)
  | _ => none

/-- The last step of `updateUI`: nothing without `#timer-panel`; otherwise the
panel is shown and `updateTimer` runs, or the panel is hidden.
`clearInterval(timerInterval)` has nothing to clear: `timerInterval` is never
assigned. -/
def updateTimerPanel (data : Json) (s : State) : Run :=
  match s.timerPanel with
  | none => { state := s, outcome := .returned }
  | some _ =>
    match getField (some data) "dryingActive", getField (some data) "remainingTime" with
    | some dryingActive, some remainingTime =>
      if truthy dryingActive then updateTimer remainingTime { s with timerPanel := some "block" }
      else { state := { s with timerPanel := some "none" }, outcome := .returned }
    | _, _ => { state := s, outcome := .threw }

/-- The function `updateUI(data)`; `timestamp` is the clock reading
`updateCharts` takes. There is no `try` in the function: the first statement
that throws ends it. Assigning `data.heaterPower` to `textContent` converts it
to a string. -/
def updateUI (timestamp : String) (data : Json) (s : State) : Run :=
  match toFixed1 (getField (some data) "temperature") with
  | none => { state := s, outcome := .threw }
  | some temperature =>
    let s := { s with currentTemp := s.currentTemp.map (fun _ => temperature) }
    match toFixed1 (getField (some data) "humidity") with
    | none => { state := s, outcome := .threw }
    | some humidity =>
      let s := { s with currentHumidity := s.currentHumidity.map (fun _ => humidity) }
      match toFixed1 (getField (some data) "targetTemperature") with
      | none => { state := s, outcome := .threw }
      | some target =>
        let s := { s with targetTemp := s.targetTemp.map (fun _ => target) }
        match getField (some data) "heaterPower" with
        | none => { state := s, outcome := .threw }
        | some power =>
          if s.heaterPower.isSome && valThrows power then { state := s, outcome := .threw }
          else
            let s := { s with heaterPower := s.heaterPower.map (fun _ => Content.value power) }
            match updateCharts timestamp data s with
            | { state := s, outcome := .threw } => { state := s, outcome := .threw }
            | { state := s, outcome := .returned } => updateTimerPanel data s

/-- The inner chain of `fetchInitialStatus`, started by its first `catch`:
`fetch("/status")`, whose own `catch` only logs. -/
def fetchRegularStatus (respB : Response) (timestampB : String) (s : State) : State :=
  let s := { s with requests := s.requests ++ ["/status"] }
  match respB.parsed with
  | some data => (updateUI timestampB data s).state
  | none => s

/-- The function `fetchInitialStatus()`, with the promise chains run to
completion: `respA` is what `fetch("/debug/status")` yields, `respB` what
`fetch("/status")` yields if requested. A throw of `updateUI` in the first
chain is handled by its `catch`, which starts the inner chain. -/
def fetchInitialStatus (respA respB : Response) (timestampA timestampB : String)
    (s : State) : State :=
  let s := { s with requests := s.requests ++ ["/debug/status"] }
  match respA.parsed with
  | some data =>
    match updateUI timestampA data s with
    | { state := s, outcome := .threw } => fetchRegularStatus respB timestampB s
    | { state := s, outcome := .returned } => s
  | none => fetchRegularStatus respB timestampB s

/-! ## The live channel -/

/-- The function `updateConnectionStatus(message, connected)`. -/
def updateConnectionStatus (message : String) (connected : Bool) (s : State) : State :=
  { s with connectionStatus := s.connectionStatus.map (fun _ => (message, connected)) }

/-- The function `initWebSocket()`: a new socket carrying the four handlers,
or, when `new WebSocket` throws, only the "Failed to Connect" status. -/
def initWebSocket (constructorThrows : Bool) (s : State) : State :=
  if constructorThrows then updateConnectionStatus "Failed to Connect" false s
  else { s with sockets := s.sockets + 1 }

/-- The handler `ws.onopen`; the status fetch it starts is run to completion. -/
def onOpen (respA respB : Response) (timestampA timestampB : String) (s : State) : State :=
  fetchInitialStatus respA respB timestampA timestampB
    (updateConnectionStatus "Connected" true { s with isConnected := true })

/-- The handler `ws.onmessage`: `parsed` is `JSON.parse(event.data)`, `none`
when it throws; the `catch` of the handler also swallows a throw of
`updateUI`. -/
def onMessage (parsed : Option Json) (timestamp : String) (s : State) : State :=
  match parsed with
  | none => s
  | some data => (updateUI timestamp data s).state

/-- The handler `ws.onclose`: it ends with `setTimeout(initWebSocket, 2000)`. -/
def onClose (s : State) : State :=
  let s := updateConnectionStatus "Disconnected - Reconnecting..." false
    { s with isConnected := false }
  { s with timers := s.timers ++ [2000] }

/-- The handler `ws.onerror`. -/
def onError (s : State) : State :=
  updateConnectionStatus "Connection Error" false { s with isConnected := false }

/-- What the browser can deliver once `initWebSocket` has run: an event of a
socket, or the firing of a pending reconnect timer (with whether `new
WebSocket` throws in the `initWebSocket` it calls). -/
inductive Event where
  | open (respA respB : Response) (timestampA timestampB : String)
  | message (parsed : Option Json) (timestamp : String)
  | close
  | error
  | timerFires (constructorThrows : Bool)

/-- One event, handled to completion; `none` when the browser cannot deliver
it. A socket delivers events only until its `close` event, which it fires
once; a timer fires once, the oldest first, and is then no longer pending. -/
def step (s : State) : Event → Option State
  | .open respA respB timestampA timestampB =>
    if s.sockets = 0 then none else some (onOpen respA respB timestampA timestampB s)
  | .message parsed timestamp =>
    if s.sockets = 0 then none else some (onMessage parsed timestamp s)
  | .close =>
    if s.sockets = 0 then none else some (onClose { s with sockets := s.sockets - 1 })
  | .error =>
    if s.sockets = 0 then none else some (onError s)
  | .timerFires constructorThrows =>
    match s.timers with
    | [] => none
    | _ :: pending => some (initWebSocket constructorThrows { s with timers := pending })

/-- A sequence of events, handled one after the other. -/
def run (s : State) : List Event → Option State
  | [] => some s
  | e :: es => (step s e).bind (fun t => run t es)

/-- A channel that opens, closes, is reopened by the reconnect timer, fails
and closes again. -/
def reconnectTrace : List Event :=
  [Event.open .networkError .networkError "10:00:00" "10:00:00", Event.close,
   Event.timerFires false, Event.error, Event.close]

/-- The state `reconnectTrace` leads to from the first `initWebSocket` of
`State.pageLoad`. -/
def reconnectTraceEnd : State :=
  onClose
    { onError
        (initWebSocket false
          { onClose
              { onOpen .networkError .networkError "10:00:00" "10:00:00"
                  (initWebSocket false State.pageLoad) with sockets := 0 }
            with timers := [] })
      with sockets := 0 }

/-! ## The timer text, as specified -/

/-- The decimal numeral of `n`, left-padded with a zero to two digits. -/
def twoDigits (n : Nat) : String :=
  if n < 10 then "0" ++ toString n else toString n

/-- The text `HH:MM:SS` for `r` seconds: the padded numerals of
`floor(r / 3600)`, `floor((r mod 3600) / 60)` and `r mod 60`. -/
def clockText (r : Nat) : String :=
  twoDigits (r / 3600) ++ ":" ++ twoDigits (r % 3600 / 60) ++ ":" ++ twoDigits (r % 60)

/-- Whether a value is a number, that is, has the method `toFixed`. -/
def isNumber : JsVal → Bool
  | some (.num _) => true
  | _ => false

/-- The snapshot of the specification's example without its `temperature`. -/
def snapshotWithoutTemperature : Json :=
  .obj [("targetTemperature", .num (.fin 45)), ("humidity", .num (.fin (301 / 10))),
        ("heaterPower", .num (.fin 60)), ("dryingActive", .bool true),
        ("remainingTime", .num (.fin 125))]

/-! ## The progress percentage -/

/-- The expression `100 - (remainingSeconds / totalDuration) * 100` of
`updateTimer`, with `totalDuration = duration * 60`, in exact arithmetic. -/
def progress (remainingSeconds duration : ℚ) : ℚ :=
  let totalDuration := duration * 60
  100 - (remainingSeconds / totalDuration) * 100

/-- The percentage a recorded `style.width` stands for, when both operands are
finite numbers and the total duration is not zero (a division by zero yields
an infinity or `NaN`, not a rational). -/
def BarWidth.value : BarWidth → Option ℚ
  | .percent (some (.num (.fin remainingSeconds))) (some (.num (.fin duration))) =>
    if duration * 60 = 0 then none else some (progress remainingSeconds duration)
  | _ => none

/-- A page on which the PLA profile of the default catalog has been started:
five cards, the first one active. -/
def State.dryingPLA : State :=
  { State.pageLoad with
    profiles := some fallbackProfiles
    cards := [true, false, false, false, false]
    timerPanel := some "block" }

/-! ## Theorems -/

/-! ### Rolling buffers -/

theorem length_pushShift {α : Type} (a : List α) (v : α) :
    (pushShift a v).length = a.length := by
  simp [pushShift]

theorem foldl_pushShift {α : Type} (vs : List α) :
    ∀ a : List α, vs.foldl pushShift a = (a ++ vs).drop vs.length := by
  induction vs with
  | nil => intro a; simp
  | cons v vs ih =>
    intro a
    rw [List.foldl_cons, ih, List.length_cons]
    cases a <;> simp [pushShift]

theorem foldl_pushShift_full {α : Type} (a vs : List α) (k : Nat)
    (h : vs.length = a.length + k) : vs.foldl pushShift a = vs.drop k := by
  rw [foldl_pushShift, h, ← List.drop_drop, List.drop_left]

theorem initCharts_lengths (s : State) (hlib : s.chartLib = true)
    (htemp : s.tempCanvas = true) (hhum : s.humCanvas = true) :
    bufferLengths (initCharts s) = some (60, 60, 60, 60, 60) := by
  simp [initCharts, hlib, htemp, hhum, bufferLengths, maxDataPoints]

theorem updateCharts_lengths (timestamp : String) (data : Json) (s : State) :
    bufferLengths (updateCharts timestamp data s).state = bufferLengths s := by
  unfold updateCharts
  cases htc : s.temperatureChart <;> cases hhc : s.humidityChart <;>
    simp only [bufferLengths, htc, hhc]
  cases getField (some data) "temperature" <;>
    cases getField (some data) "targetTemperature" <;>
    cases getField (some data) "humidity" <;>
    simp [length_pushShift]

theorem runCharts_lengths (inputs : List (String × Json)) :
    ∀ s : State, bufferLengths (runCharts s inputs) = bufferLengths s := by
  induction inputs with
  | nil => intro s; rfl
  | cons i rest ih =>
    intro s
    show bufferLengths (runCharts (updateCharts i.1 i.2 s).state rest) = _
    rw [ih, updateCharts_lengths]

/-- C1: starting from the charts `initCharts` creates, after every call of a
sequence of calls of `updateCharts`, whatever the snapshots are and whether a
call throws, each of the five rolling arrays has exactly 60 entries. -/
theorem rolling_arrays_keep_length (s : State) (inputs : List (String × Json))
    (hlib : s.chartLib = true) (htemp : s.tempCanvas = true)
    (hhum : s.humCanvas = true) :
    ∀ n : Nat, bufferLengths (runCharts (initCharts s) (inputs.take n))
      = some (maxDataPoints, maxDataPoints, maxDataPoints, maxDataPoints,
              maxDataPoints) := by
  intro n
  rw [runCharts_lengths, initCharts_lengths s hlib htemp hhum]
  rfl

theorem rolling_arrays_keep_length_witness :
    bufferLengths (runCharts (initCharts State.pageLoad)
      ([("10:00:00", snapshot (.num (.fin 45)) (.num (.fin 45)) (.num (.fin 30))
            (.num (.fin 60)) (.bool true) (.num (.fin 125))),
        ("10:00:02", Json.null),
        ("10:00:04", Json.obj [])].take 3))
      = some (maxDataPoints, maxDataPoints, maxDataPoints, maxDataPoints,
              maxDataPoints) :=
  rolling_arrays_keep_length State.pageLoad _ rfl rfl rfl 3

theorem runCharts_snapshotCalls (snaps : List (String × List (String × Json))) :
    ∀ (s : State) (tc : TemperatureChart) (hc : HumidityChart),
      s.temperatureChart = some tc → s.humidityChart = some hc →
      dataSeries (runCharts s (snapshotCalls snaps))
        = some ((pushedValues "temperature" snaps).foldl pushShift tc.actual,
                (pushedValues "targetTemperature" snaps).foldl pushShift tc.target,
                (pushedValues "humidity" snaps).foldl pushShift hc.data) := by
  induction snaps with
  | nil =>
    intro s tc hc htc hhc
    simp [snapshotCalls, pushedValues, runCharts, dataSeries, htc, hhc]
  | cons p rest ih =>
    intro s tc hc htc hhc
    have hstep : runCharts s (snapshotCalls (p :: rest))
        = runCharts (updateCharts p.1 (Json.obj p.2) s).state (snapshotCalls rest) := rfl
    rw [hstep]
    have h1 : (updateCharts p.1 (Json.obj p.2) s).state.temperatureChart
        = some { labels := pushShift tc.labels p.1
                 actual := pushShift tc.actual (ownProperty p.2 "temperature")
                 target := pushShift tc.target (ownProperty p.2 "targetTemperature") } := by
      simp [updateCharts, htc, hhc, getField]
    have h2 : (updateCharts p.1 (Json.obj p.2) s).state.humidityChart
        = some { labels := pushShift hc.labels p.1
                 data := pushShift hc.data (ownProperty p.2 "humidity") } := by
      simp [updateCharts, htc, hhc, getField]
    rw [ih _ _ _ h1 h2]
    simp [pushedValues]

/-- C2: after `60 + k` snapshot objects have been applied by `updateCharts` to
the freshly created charts, each data series is the sequence of the values
pushed for its field with the first `k` dropped: the last 60 pushed values,
oldest first. -/
theorem series_hold_last_sixty (s : State) (k : Nat)
    (snaps : List (String × List (String × Json)))
    (hlib : s.chartLib = true) (htemp : s.tempCanvas = true)
    (hhum : s.humCanvas = true) (hlen : snaps.length = maxDataPoints + k) :
    dataSeries (runCharts (initCharts s) (snapshotCalls snaps))
      = some ((pushedValues "temperature" snaps).drop k,
              (pushedValues "targetTemperature" snaps).drop k,
              (pushedValues "humidity" snaps).drop k)
    ∧ ((pushedValues "temperature" snaps).drop k).length = maxDataPoints
    ∧ ((pushedValues "targetTemperature" snaps).drop k).length = maxDataPoints
    ∧ ((pushedValues "humidity" snaps).drop k).length = maxDataPoints := by
  refine ⟨?_, ?_, ?_, ?_⟩
  · have hi : initCharts s =
        { s with
          temperatureChart := some
            { labels := List.replicate maxDataPoints ""
              actual := List.replicate maxDataPoints (some Json.null)
              target := List.replicate maxDataPoints (some Json.null) }
          humidityChart := some
            { labels := List.replicate maxDataPoints ""
              data := List.replicate maxDataPoints (some Json.null) } } := by
      simp [initCharts, hlib, htemp, hhum]
    rw [hi, runCharts_snapshotCalls snaps _ _ _ rfl rfl]
    simp only []
    rw [foldl_pushShift_full _ _ k (by simp [pushedValues, hlen]),
        foldl_pushShift_full _ _ k (by simp [pushedValues, hlen]),
        foldl_pushShift_full _ _ k (by simp [pushedValues, hlen])]
  all_goals simp [pushedValues, hlen]

theorem series_hold_last_sixty_witness :
    dataSeries (runCharts (initCharts State.pageLoad) (snapshotCalls (countingSnapshots 61)))
      = some ((pushedValues "temperature" (countingSnapshots 61)).drop 1,
              (pushedValues "targetTemperature" (countingSnapshots 61)).drop 1,
              (pushedValues "humidity" (countingSnapshots 61)).drop 1) :=
  (series_hold_last_sixty State.pageLoad 1 (countingSnapshots 61) rfl rfl rfl
    (by simp [maxDataPoints, countingSnapshots])).1

/-! ### Commands while disconnected -/

/-- C3: with `isConnected` false, each of `startProfile`, `setManualTemperature`
and `stopDrying`, for every argument, only appends the "not connected" alert:
nothing is handed to `ws.send`, and the profile cards, `dryingDuration`,
`dryingStartTime` and `isConnected` are as before. -/
theorem commands_rejected_when_disconnected (s : State) (profileIndex now : Nat)
    (temperature : JsNum) (sendThrows : Bool) (h : s.isConnected = false) :
    startProfile profileIndex sendThrows now s
        = { s with alerts := s.alerts ++ ["Not connected to the dryer. Please refresh the page."] }
    ∧ setManualTemperature temperature sendThrows s
        = { s with alerts := s.alerts ++ ["Not connected to the dryer. Please refresh the page."] }
    ∧ stopDrying sendThrows s
        = { s with alerts := s.alerts ++ ["Not connected to the dryer. Please refresh the page."] }
    ∧ (startProfile profileIndex sendThrows now s).sent = s.sent
    ∧ (setManualTemperature temperature sendThrows s).sent = s.sent
    ∧ (stopDrying sendThrows s).sent = s.sent
    ∧ (startProfile profileIndex sendThrows now s).cards = s.cards
    ∧ (setManualTemperature temperature sendThrows s).cards = s.cards
    ∧ (stopDrying sendThrows s).cards = s.cards
    ∧ (startProfile profileIndex sendThrows now s).dryingDuration = s.dryingDuration
    ∧ (startProfile profileIndex sendThrows now s).dryingStartTime = s.dryingStartTime
    ∧ (startProfile profileIndex sendThrows now s).isConnected = false
    ∧ (setManualTemperature temperature sendThrows s).isConnected = false
    ∧ (stopDrying sendThrows s).isConnected = false := by
  simp [startProfile, setManualTemperature, stopDrying, h]

theorem commands_rejected_when_disconnected_witness :
    (startProfile 2 false 1700000000000 State.pageLoad).sent = []
    ∧ (setManualTemperature (.fin 50) false State.pageLoad).sent = []
    ∧ (stopDrying false State.pageLoad).sent = []
    ∧ (startProfile 2 false 1700000000000 State.pageLoad).alerts
        = ["Not connected to the dryer. Please refresh the page."] :=
  have h := commands_rejected_when_disconnected State.pageLoad 2 1700000000000
    (.fin 50) false rfl
  ⟨h.2.2.2.1, h.2.2.2.2.1, h.2.2.2.2.2.1, by rw [h.1]; rfl⟩

/-! ### Manual temperature validation -/

theorem setTempClick_reject (t : JsNum) (sendThrows : Bool) (s : State)
    (h : ¬ inRange t) :
    setTempClick (some t) sendThrows s
      = { s with
          alerts := s.alerts ++ ["Please enter a valid temperature between 30°C and 80°C"] } := by
  cases t with
  | fin q =>
    have hq : q < 30 ∨ 80 < q := by
      by_contra hc
      push_neg at hc
      exact h ⟨hc.1, hc.2⟩
    rcases hq with hq | hq <;> simp [setTempClick, JsNum.isNaN, JsNum.lt, hq]
  | nan => simp [setTempClick, JsNum.isNaN]
  | posInf => simp [setTempClick, JsNum.isNaN, JsNum.lt]
  | negInf => simp [setTempClick, JsNum.isNaN, JsNum.lt]

theorem setTempClick_accept (t : JsNum) (sendThrows : Bool) (s : State)
    (h : inRange t) :
    setTempClick (some t) sendThrows s = setManualTemperature t sendThrows s := by
  cases t with
  | fin q =>
    obtain ⟨h30, h80⟩ := h
    simp [setTempClick, JsNum.isNaN, JsNum.lt, not_lt.mpr h30, not_lt.mpr h80]
  | nan => exact absurd h id
  | posInf => exact absurd h id
  | negInf => exact absurd h id

theorem setManualTemperature_ne_reject (t : JsNum) (sendThrows : Bool) (s : State) :
    setManualTemperature t sendThrows s
      ≠ { s with
          alerts := s.alerts ++ ["Please enter a valid temperature between 30°C and 80°C"] } := by
  intro h
  have ha := congrArg State.alerts h
  unfold setManualTemperature at ha
  split at ha
  · simp at ha
  · split at ha
    · simp at ha
    · simp at ha

/-- C4: the click handler hands the parsed temperature `t` to
`setManualTemperature` exactly when `t` is a number with `30 ≤ t ≤ 80`; for
`NaN`, an infinity or a value outside the range it only shows the validation
alert, and no command is sent. So 29.9 and 80.1 are rejected without a send,
and 30 and 80 are accepted: on a connected channel whose `send` succeeds the
`setTemperature` command is sent. -/
theorem set_temperature_validated (t : JsNum) (sendThrows : Bool) (s : State) :
    (setTempClick (some t) sendThrows s = setManualTemperature t sendThrows s ↔ inRange t)
    ∧ (¬ inRange t →
        setTempClick (some t) sendThrows s
            = { s with
                alerts := s.alerts
                  ++ ["Please enter a valid temperature between 30°C and 80°C"] }
          ∧ (setTempClick (some t) sendThrows s).sent = s.sent)
    ∧ (setTempClick (some (.fin (299 / 10))) sendThrows s).sent = s.sent
    ∧ (setTempClick (some (.fin (801 / 10))) sendThrows s).sent = s.sent
    ∧ setTempClick (some (.fin 30)) sendThrows s
        = setManualTemperature (.fin 30) sendThrows s
    ∧ setTempClick (some (.fin 80)) sendThrows s
        = setManualTemperature (.fin 80) sendThrows s
    ∧ (s.isConnected = true → sendThrows = false →
        (setTempClick (some (.fin 30)) sendThrows s).sent
            = s.sent ++ [Command.setTemperature (.fin 30)]
          ∧ (setTempClick (some (.fin 80)) sendThrows s).sent
            = s.sent ++ [Command.setTemperature (.fin 80)]) := by
  have hlow : ¬ inRange (.fin (299 / 10)) := by
    rintro ⟨h30, -⟩
    norm_num at h30
  have hhigh : ¬ inRange (.fin (801 / 10)) := by
    rintro ⟨-, h80⟩
    norm_num at h80
  have h30 : inRange (.fin 30) := ⟨le_refl _, by norm_num⟩
  have h80 : inRange (.fin 80) := ⟨by norm_num, le_refl _⟩
  refine ⟨⟨?_, setTempClick_accept t sendThrows s⟩, ?_, ?_, ?_,
    setTempClick_accept _ _ _ h30, setTempClick_accept _ _ _ h80, ?_⟩
  · intro heq
    by_contra hn
    rw [setTempClick_reject t sendThrows s hn] at heq
    exact setManualTemperature_ne_reject t sendThrows s heq.symm
  · intro hn
    rw [setTempClick_reject t sendThrows s hn]
    exact ⟨rfl, rfl⟩
  · rw [setTempClick_reject _ sendThrows s hlow]
  · rw [setTempClick_reject _ sendThrows s hhigh]
  · intro hc hs
    rw [setTempClick_accept _ _ _ h30, setTempClick_accept _ _ _ h80]
    simp [setManualTemperature, hc, hs]

/-! ### Profile catalog -/

theorem renderCards_keeps (items : List Json) :
    ∀ s : State, (renderCards items s).state.profiles = s.profiles
      ∧ (renderCards items s).state.requests = s.requests
      ∧ (renderCards items s).state.assignments = s.assignments := by
  induction items with
  | nil => intro s; exact ⟨rfl, rfl, rfl⟩
  | cons profile rest ih =>
    intro s
    unfold renderCards
    split
    · exact ⟨rfl, rfl, rfl⟩
    · exact ih _

theorem renderCards_outcome (items : List Json) :
    ∀ s t : State, (renderCards items s).outcome = (renderCards items t).outcome := by
  induction items with
  | nil => intro s t; rfl
  | cons profile rest ih =>
    intro s t
    unfold renderCards
    split
    · rfl
    · exact ih _ _

theorem renderProfiles_keeps (s : State) :
    (renderProfiles s).state.profiles = s.profiles
      ∧ (renderProfiles s).state.requests = s.requests
      ∧ (renderProfiles s).state.assignments = s.assignments := by
  unfold renderProfiles
  split
  · exact ⟨rfl, rfl, rfl⟩
  · split
    · exact ⟨rfl, rfl, rfl⟩
    · split
      · exact renderCards_keeps _ _
      · exact ⟨rfl, rfl, rfl⟩

theorem renderProfiles_outcome (s t : State) (hl : s.profilesList = t.profilesList)
    (hp : s.profiles = t.profiles) :
    (renderProfiles s).outcome = (renderProfiles t).outcome := by
  unfold renderProfiles
  rw [hl, hp]
  split
  · rfl
  · split
    · rfl
    · split
      · exact renderCards_outcome _ _ _
      · rfl

/-- C5 as stated fails: with `{}` as the body of a 2xx response of
`/debug/profiles`, `profiles` is assigned, `renderProfiles` throws on
`profiles.forEach`, the first `catch` requests `/profiles`, and as that request
fails the default list is assigned as well. -/
theorem catalog_single_source_counterexample :
    (loadProfilesDirectly (.http true (some (.obj []))) .networkError
        State.pageLoad).state.requests = ["/debug/profiles", "/profiles"]
    ∧ (loadProfilesDirectly (.http true (some (.obj []))) .networkError
        State.pageLoad).state.assignments = 2
    ∧ (loadProfilesDirectly (.http true (some (.obj []))) .networkError
        State.pageLoad).state.profiles = some fallbackProfiles := by
  refine ⟨rfl, rfl, rfl⟩

/-- C5, amended: when `/debug/profiles` answers with a 2xx status and a JSON
body for which `renderProfiles` returns without throwing, `/profiles` is not
requested and the default list is not assigned: `profiles` is assigned once,
with that body. -/
theorem catalog_single_source (body : Json) (respB : Response) (s : State)
    (hrender : (renderProfiles { s with profiles := some body }).outcome = .returned) :
    (loadProfilesDirectly (.http true (some body)) respB s).state.requests
        = s.requests ++ ["/debug/profiles"]
    ∧ (loadProfilesDirectly (.http true (some body)) respB s).state.assignments
        = s.assignments + 1
    ∧ (loadProfilesDirectly (.http true (some body)) respB s).state.profiles = some body
    ∧ (loadProfilesDirectly (.http true (some body)) respB s).outcome = .returned := by
  have hout : (assignAndRender body
      { s with requests := s.requests ++ ["/debug/profiles"] }).outcome = .returned := by
    rw [← hrender]
    exact renderProfiles_outcome _ _ rfl rfl
  have hkeep := renderProfiles_keeps
    { s with requests := s.requests ++ ["/debug/profiles"], profiles := some body,
             assignments := s.assignments + 1 }
  have hload : loadProfilesDirectly (.http true (some body)) respB s
      = assignAndRender body { s with requests := s.requests ++ ["/debug/profiles"] } := by
    simp only [loadProfilesDirectly, Response.parsed]
    split
    · rename_i heq
      rw [heq] at hout
      cases hout
    · rfl
  rw [hload]
  exact ⟨hkeep.2.1, hkeep.2.2, hkeep.1, hout⟩

theorem catalog_single_source_witness :
    (loadProfilesDirectly (.http true (some twoProfiles))
        (.http true (some fallbackProfiles)) State.pageLoad).state.requests
      = ["/debug/profiles"]
    ∧ (loadProfilesDirectly (.http true (some twoProfiles))
        (.http true (some fallbackProfiles)) State.pageLoad).state.profiles
      = some twoProfiles :=
  have h := catalog_single_source twoProfiles (.http true (some fallbackProfiles))
    State.pageLoad rfl
  ⟨h.1, h.2.2.1⟩

/-- C6: when the requests to `/debug/profiles` and `/profiles` both fail (a
network error or a status outside 2xx), both endpoints have been requested and
`profiles` ends as the five defaults, in this order: PLA 45/240, PETG 65/240,
ABS/ASA 70/300, Nylon 75/360, TPU 50/240. -/
theorem catalog_defaults_when_both_fail (respA respB : Response) (s : State)
    (hA : respA.failed = true) (hB : respB.failed = true) :
    (loadProfilesDirectly respA respB s).state.profiles
      = some (.arr
        [ .obj [("name", .str "PLA"), ("temperature", .num (.fin 45)),
                ("duration", .num (.fin 240))],
          .obj [("name", .str "PETG"), ("temperature", .num (.fin 65)),
                ("duration", .num (.fin 240))],
          .obj [("name", .str "ABS/ASA"), ("temperature", .num (.fin 70)),
                ("duration", .num (.fin 300))],
          .obj [("name", .str "Nylon"), ("temperature", .num (.fin 75)),
                ("duration", .num (.fin 360))],
          .obj [("name", .str "TPU"), ("temperature", .num (.fin 50)),
                ("duration", .num (.fin 240))] ])
    ∧ (loadProfilesDirectly respA respB s).state.requests
      = s.requests ++ ["/debug/profiles", "/profiles"]
    ∧ (loadProfilesDirectly respA respB s).state.assignments = s.assignments + 1 := by
  have hpa : respA.parsed = none := by
    cases respA with
    | networkError => rfl
    | http ok body => cases ok <;> simp_all [Response.failed, Response.parsed]
  have hpb : respB.parsed = none := by
    cases respB with
    | networkError => rfl
    | http ok body => cases ok <;> simp_all [Response.failed, Response.parsed]
  have hkeep := renderProfiles_keeps
    { s with requests := s.requests ++ ["/debug/profiles"] ++ ["/profiles"],
             profiles := some fallbackProfiles, assignments := s.assignments + 1 }
  have hload : loadProfilesDirectly respA respB s
      = assignAndRender fallbackProfiles
          { s with requests := s.requests ++ ["/debug/profiles"] ++ ["/profiles"] } := by
    simp only [loadProfilesDirectly, hpa, hpb]
  rw [hload]
  refine ⟨hkeep.1, ?_, hkeep.2.2⟩
  rw [show (assignAndRender fallbackProfiles
        { s with requests := s.requests ++ ["/debug/profiles"] ++ ["/profiles"] }).state.requests
      = s.requests ++ ["/debug/profiles"] ++ ["/profiles"] from hkeep.2.1]
  simp

theorem catalog_defaults_when_both_fail_witness :
    (loadProfilesDirectly (.http false none) .networkError State.pageLoad).state.profiles
      = some fallbackProfiles
    ∧ (loadProfilesDirectly (.http false none) .networkError State.pageLoad).state.cards
      = [false, false, false, false, false] :=
  ⟨(catalog_defaults_when_both_fail (.http false none) .networkError State.pageLoad
      rfl rfl).1, rfl⟩

/-! ### What each projection step can change -/

theorem updateCharts_frame (timestamp : String) (data : Json) (s : State) :
    ∃ tc hc, (updateCharts timestamp data s).state
      = { s with temperatureChart := tc, humidityChart := hc } := by
  unfold updateCharts
  split
  · split <;> exact ⟨_, _, rfl⟩
  · exact ⟨_, _, rfl⟩

theorem updateTimer_frame (remainingSeconds : JsVal) (s : State) :
    ∃ rt pb, (updateTimer remainingSeconds s).state
      = { s with remainingTime := rt, progressBar := pb } := by
  unfold updateTimer
  split
  · exact ⟨_, _, rfl⟩
  · simp only []
    split
    · exact ⟨_, _, rfl⟩
    · split
      · exact ⟨_, _, rfl⟩
      · split
        · exact ⟨_, _, rfl⟩
        · split <;> exact ⟨_, _, rfl⟩

theorem updateTimerPanel_frame (data : Json) (s : State) :
    ∃ tp rt pb, (updateTimerPanel data s).state
      = { s with timerPanel := tp, remainingTime := rt, progressBar := pb } := by
  unfold updateTimerPanel
  split
  · exact ⟨_, _, _, rfl⟩
  · split
    · split
      · obtain ⟨rt, pb, h⟩ := updateTimer_frame ‹JsVal› { s with timerPanel := some "block" }
        exact ⟨_, rt, pb, h⟩
      · exact ⟨_, _, _, rfl⟩
    · exact ⟨_, _, _, rfl⟩

theorem updateUI_frame (timestamp : String) (data : Json) (s : State) :
    ∃ ct ch tt hp tc hc tp rt pb, (updateUI timestamp data s).state
      = { s with currentTemp := ct, currentHumidity := ch, targetTemp := tt,
                 heaterPower := hp, temperatureChart := tc, humidityChart := hc,
                 timerPanel := tp, remainingTime := rt, progressBar := pb } := by
  unfold updateUI
  split
  · exact ⟨_, _, _, _, _, _, _, _, _, rfl⟩
  · simp only []
    split
    · exact ⟨_, _, _, _, _, _, _, _, _, rfl⟩
    · split
      · exact ⟨_, _, _, _, _, _, _, _, _, rfl⟩
      · split
        · exact ⟨_, _, _, _, _, _, _, _, _, rfl⟩
        · split
          · exact ⟨_, _, _, _, _, _, _, _, _, rfl⟩
          · split
            · rename_i s2 heq
              obtain ⟨tc, hc, h⟩ := updateCharts_frame timestamp data _
              rw [heq] at h
              simp only at h
              subst h
              exact ⟨_, _, _, _, tc, hc, _, _, _, rfl⟩
            · rename_i s2 heq
              obtain ⟨tc, hc, h⟩ := updateCharts_frame timestamp data _
              rw [heq] at h
              simp only at h
              subst h
              obtain ⟨tp, rt, pb, h2⟩ := updateTimerPanel_frame data _
              rw [h2]
              exact ⟨_, _, _, _, tc, hc, tp, rt, pb, rfl⟩

theorem updateUI_channel (timestamp : String) (data : Json) (s : State) :
    (updateUI timestamp data s).state.timers = s.timers
      ∧ (updateUI timestamp data s).state.sockets = s.sockets := by
  obtain ⟨ct, ch, tt, hp, tc, hc, tp, rt, pb, h⟩ := updateUI_frame timestamp data s
  rw [h]
  exact ⟨rfl, rfl⟩

theorem fetchRegularStatus_channel (respB : Response) (timestampB : String) (s : State) :
    (fetchRegularStatus respB timestampB s).timers = s.timers
      ∧ (fetchRegularStatus respB timestampB s).sockets = s.sockets := by
  unfold fetchRegularStatus
  simp only []
  cases respB.parsed with
  | none => exact ⟨rfl, rfl⟩
  | some data => exact updateUI_channel timestampB data _

theorem fetchInitialStatus_channel (respA respB : Response)
    (timestampA timestampB : String) (s : State) :
    (fetchInitialStatus respA respB timestampA timestampB s).timers = s.timers
      ∧ (fetchInitialStatus respA respB timestampA timestampB s).sockets = s.sockets := by
  unfold fetchInitialStatus
  simp only []
  cases respA.parsed with
  | none => exact fetchRegularStatus_channel respB timestampB _
  | some data =>
    simp only []
    have hA := updateUI_channel timestampA data
      { s with requests := s.requests ++ ["/debug/status"] }
    split
    · rename_i s2 heq
      rw [heq] at hA
      have h2 := fetchRegularStatus_channel respB timestampB s2
      exact ⟨h2.1.trans hA.1, h2.2.trans hA.2⟩
    · rename_i s2 heq
      rw [heq] at hA
      exact hA

/-! ### Reconnection -/

theorem run_append (a b : List Event) :
    ∀ s : State, run s (a ++ b) = (run s a).bind (fun t => run t b) := by
  induction a with
  | nil => intro s; rfl
  | cons e es ih =>
    intro s
    simp only [List.cons_append, run]
    cases step s e with
    | none => rfl
    | some t => exact ih t

theorem step_keeps_single (s t : State) (e : Event) (hstep : step s e = some t)
    (hone : s.timers.length + s.sockets ≤ 1) (hdelay : ∀ d ∈ s.timers, d = 2000) :
    t.timers.length + t.sockets ≤ 1 ∧ (∀ d ∈ t.timers, d = 2000)
      ∧ (e = Event.close → t.timers = [2000]) := by
  cases e with
  | «open» respA respB timestampA timestampB =>
    simp only [step] at hstep
    split at hstep
    · cases hstep
    · cases hstep
      have h := fetchInitialStatus_channel respA respB timestampA timestampB
        (updateConnectionStatus "Connected" true { s with isConnected := true })
      simp only [onOpen]
      rw [h.1, h.2]
      exact ⟨hone, hdelay, fun hc => by cases hc⟩
  | message parsed timestamp =>
    simp only [step] at hstep
    split at hstep
    · cases hstep
    · cases hstep
      cases parsed with
      | none => exact ⟨hone, hdelay, fun hc => by cases hc⟩
      | some data =>
        have h := updateUI_channel timestamp data s
        simp only [onMessage]
        rw [h.1, h.2]
        exact ⟨hone, hdelay, fun hc => by cases hc⟩
  | close =>
    simp only [step] at hstep
    split at hstep
    · cases hstep
    · rename_i hpos
      cases hstep
      have hnil : s.timers = [] := by
        apply List.eq_nil_of_length_eq_zero
        omega
      simp [onClose, updateConnectionStatus, hnil]
      omega
  | error =>
    simp only [step] at hstep
    split at hstep
    · cases hstep
    · cases hstep
      exact ⟨hone, hdelay, fun hc => by cases hc⟩
  | timerFires constructorThrows =>
    simp only [step] at hstep
    split at hstep
    · cases hstep
    · rename_i d pending hcons
      cases hstep
      rw [hcons] at hone hdelay
      simp only [List.length_cons] at hone
      have hd : ∀ x ∈ pending, x = 2000 := fun x hx => hdelay x (List.mem_cons_of_mem _ hx)
      cases constructorThrows with
      | true =>
        simp only [initWebSocket, updateConnectionStatus, if_true]
        exact ⟨by omega, hd, fun hc => by cases hc⟩
      | false =>
        simp only [initWebSocket]
        exact ⟨by simp; omega, hd, fun hc => by cases hc⟩

theorem run_keeps_single (events : List Event) :
    ∀ s t : State, run s events = some t →
      s.timers.length + s.sockets ≤ 1 → (∀ d ∈ s.timers, d = 2000) →
      t.timers.length + t.sockets ≤ 1 ∧ (∀ d ∈ t.timers, d = 2000) := by
  induction events with
  | nil =>
    intro s t hrun hone hdelay
    cases hrun
    exact ⟨hone, hdelay⟩
  | cons e es ih =>
    intro s t hrun hone hdelay
    simp only [run] at hrun
    cases hstep : step s e with
    | none => rw [hstep] at hrun; cases hrun
    | some u =>
      rw [hstep] at hrun
      have h := step_keeps_single s u e hstep hone hdelay
      exact ih u t hrun h.1 h.2.1

/-- C7: every `close` event, in whatever state it is handled, schedules one
reconnect with the delay 2000 ms and cancels none. From the first
`initWebSocket` of a page on, whatever events the sockets and the reconnect
timers deliver (a socket fires `close` once and nothing after it), at most one
reconnect is pending, every pending reconnect has the delay 2000 ms, and right
after each `close` event exactly one reconnect is pending. -/
theorem reconnect_single_pending (s0 s : State) (constructorThrows : Bool)
    (events : List Event) (hsockets : s0.sockets = 0) (htimers : s0.timers = [])
    (hrun : run (initWebSocket constructorThrows s0) events = some s) :
    s.timers.length ≤ 1 ∧ (∀ d ∈ s.timers, d = 2000)
      ∧ (∀ before : List Event, events = before ++ [Event.close] → s.timers = [2000])
      ∧ (∀ t : State, (onClose t).timers = t.timers ++ [2000]) := by
  have hone : (initWebSocket constructorThrows s0).timers.length
      + (initWebSocket constructorThrows s0).sockets ≤ 1 := by
    cases constructorThrows <;>
      simp [initWebSocket, updateConnectionStatus, hsockets, htimers]
  have hdelay : ∀ d ∈ (initWebSocket constructorThrows s0).timers, d = 2000 := by
    cases constructorThrows <;>
      simp [initWebSocket, updateConnectionStatus, htimers]
  have hall := run_keeps_single events _ s hrun hone hdelay
  refine ⟨by omega, hall.2, ?_, fun t => rfl⟩
  intro before hev
  rw [hev, run_append] at hrun
  cases hb : run (initWebSocket constructorThrows s0) before with
  | none => rw [hb] at hrun; cases hrun
  | some t =>
    rw [hb] at hrun
    have ht := run_keeps_single before _ t hb hone hdelay
    simp only [Option.bind, run] at hrun
    cases hstep : step t Event.close with
    | none => rw [hstep] at hrun; cases hrun
    | some u =>
      rw [hstep] at hrun
      have hu : u = s := by
        injection hrun
      rw [← hu]
      exact (step_keeps_single t u Event.close hstep ht.1 ht.2).2.2 rfl

theorem reconnect_single_pending_witness :
    run (initWebSocket false State.pageLoad) reconnectTrace = some reconnectTraceEnd
      ∧ reconnectTraceEnd.timers = [2000] :=
  ⟨rfl, (reconnect_single_pending State.pageLoad reconnectTraceEnd false reconnectTrace
    rfl rfl rfl).2.2.1
      [Event.open .networkError .networkError "10:00:00" "10:00:00", Event.close,
       Event.timerFires false, Event.error] rfl⟩

/-! ### Timer text -/

theorem two_le_length_toString (n : Nat) (h : 10 ≤ n) : 2 ≤ (toString n).length := by
  show 2 ≤ (Nat.repr n).length
  simp only [Nat.repr, Nat.toDigits, List.asString, String.length]
  obtain ⟨m, rfl⟩ : ∃ m, n = m + 1 := ⟨n - 1, by omega⟩
  simp only [Nat.toDigitsCore]
  have hne : (m + 1) / 10 ≠ 0 := by omega
  rw [if_neg hne]
  split
  · simp
  · rw [Nat.toDigitsCore_lens_eq, Nat.toDigitsCore_lens_eq]; omega

theorem padStart_two (n : Nat) : padStart (toString n) 2 "0" = twoDigits n := by
  by_cases h : n < 10
  · interval_cases n <;> rfl
  · have hlen := two_le_length_toString n (by omega)
    simp [padStart, twoDigits, h, hlen]

theorem length_twoDigits (n : Nat) (h : n < 100) : (twoDigits n).length = 2 := by
  by_cases h10 : n < 10
  · interval_cases n <;> rfl
  · have hlow := two_le_length_toString n (by omega)
    have hhigh : (toString n).length ≤ 2 := Nat.repr_length n 2 (by omega) (by omega)
    simp only [twoDigits, h10, if_false]
    omega

theorem natOf_natCast (r : Nat) : natOf (some (.num (.fin (r : ℚ)))) = some r := by
  simp [natOf]

/-! ### Division of doubles -/

theorem floor_le_roundHalfEven (m : ℚ) : ⌊m⌋ ≤ roundHalfEven m := by
  unfold roundHalfEven
  split
  · exact le_refl _
  · split
    · omega
    · split <;> omega

theorem roundHalfEven_le (m : ℚ) : (roundHalfEven m : ℚ) ≤ m + 1 / 2 := by
  unfold roundHalfEven
  have hfl : (⌊m⌋ : ℚ) + Int.fract m = m := Int.floor_add_fract m
  have h0 : 0 ≤ Int.fract m := Int.fract_nonneg m
  split
  · linarith
  · rename_i h
    have h2 : 1 / 2 ≤ Int.fract m := not_lt.mp h
    split
    · push_cast; linarith
    · split
      · linarith
      · push_cast; linarith

theorem roundHalfEven_eq (m : ℚ) (z : ℤ) (hlow : (z : ℚ) - 1 / 2 < m)
    (hhigh : m < (z : ℚ) + 1 / 2) : roundHalfEven m = z := by
  unfold roundHalfEven
  have hfl : (⌊m⌋ : ℚ) + Int.fract m = m := Int.floor_add_fract m
  have h0 : 0 ≤ Int.fract m := Int.fract_nonneg m
  have h1 : Int.fract m < 1 := Int.fract_lt_one m
  split
  · rename_i h
    have ha : (z : ℚ) - 1 < (⌊m⌋ : ℚ) := by linarith
    have hb : (⌊m⌋ : ℚ) < (z : ℚ) + 1 := by linarith
    have ha2 : z - 1 < ⌊m⌋ := by exact_mod_cast ha
    have hb2 : ⌊m⌋ < z + 1 := by exact_mod_cast hb
    exact le_antisymm (Int.lt_add_one_iff.mp hb2) (Int.le_of_sub_one_lt ha2)
  · rename_i h
    have h2 : 1 / 2 ≤ Int.fract m := not_lt.mp h
    have ha : (z : ℚ) - 1 < (⌊m⌋ : ℚ) + 1 := by linarith
    have hb : (⌊m⌋ : ℚ) + 1 < (z : ℚ) + 1 := by linarith
    have ha2 : z - 1 < ⌊m⌋ + 1 := by exact_mod_cast ha
    have hb2 : ⌊m⌋ + 1 < z + 1 := by exact_mod_cast hb
    have hz : ⌊m⌋ + 1 = z :=
      le_antisymm (Int.lt_add_one_iff.mp hb2) (Int.le_of_sub_one_lt ha2)
    split
    · exact hz
    · split
      · exfalso
        rename_i h4 _
        have h5 : Int.fract m = 1 / 2 := le_antisymm (not_lt.mp h4) h2
        have h6 : (⌊m⌋ : ℚ) + 1 = (z : ℚ) := by exact_mod_cast hz
        linarith
      · exact hz

/-- The double nearest to `q`, from the binade `2 ^ e ≤ q < 2 ^ (e + 1)` and
the integer `z` nearest to `q` in units of the spacing `2 ^ (e - 52)`. -/
theorem roundDouble_eq (q : ℚ) (e z : ℤ) (hlo : (2 : ℚ) ^ e ≤ q)
    (hhi : q < (2 : ℚ) ^ (e + 1)) (he : -1022 ≤ e)
    (hlow : (z : ℚ) - 1 / 2 < q / 2 ^ (e - 52))
    (hhigh : q / 2 ^ (e - 52) < (z : ℚ) + 1 / 2) :
    roundDouble q = z * 2 ^ (e - 52) := by
  have hq : 0 < q := lt_of_lt_of_le (by positivity) hlo
  have hlog : Int.log 2 |q| = e := by
    rw [abs_of_pos hq]
    apply le_antisymm
    · have := (Int.lt_zpow_iff_log_lt (b := 2) (by norm_num) hq (x := e + 1)).mp
        (by exact_mod_cast hhi)
      omega
    · exact (Int.zpow_le_iff_le_log (b := 2) (by norm_num) hq).mp (by exact_mod_cast hlo)
  unfold roundDouble
  rw [if_neg (ne_of_gt hq)]
  simp only [hlog, max_eq_left he]
  rw [roundHalfEven_eq _ z hlow hhigh]

/-- Below `2 ^ 53` the rounding of the quotient never reaches the next
integer: `Math.floor(a / b)` is the integer quotient. -/
theorem floorDiv_exact (a b : Nat) (ha : a < 2 ^ 53) (hb : 0 < b) (hb53 : b < 2 ^ 53) :
    floorDiv a b = a / b := by
  unfold floorDiv
  by_cases ha0 : a = 0
  · subst ha0
    simp [roundDouble]
  have hbq : (0 : ℚ) < b := by exact_mod_cast hb
  have haq : (1 : ℚ) ≤ a := by exact_mod_cast Nat.pos_of_ne_zero ha0
  have ha53 : (a : ℚ) < 2 ^ 53 := by exact_mod_cast ha
  have hb53q : (b : ℚ) < 2 ^ 53 := by exact_mod_cast hb53
  have hb1 : (1 : ℚ) ≤ b := by exact_mod_cast hb
  have hq : (0 : ℚ) < (a : ℚ) / b := div_pos (by linarith) hbq
  have hqlt : (a : ℚ) / b < 2 ^ 53 := by
    rw [div_lt_iff₀ hbq]
    nlinarith
  have hpow : (2 : ℚ) ^ (-53 : ℤ) = 1 / 2 ^ 53 := by
    rw [zpow_neg, one_div]
    norm_cast
  have hqge : (2 : ℚ) ^ (-53 : ℤ) ≤ (a : ℚ) / b := by
    rw [hpow, div_le_div_iff₀ (by positivity) hbq]
    nlinarith
  have hlog1 : Int.log 2 ((a : ℚ) / b) < 53 :=
    (Int.lt_zpow_iff_log_lt (b := 2) (by norm_num) hq (x := 53)).mp (by exact_mod_cast hqlt)
  have hlog2 : -53 ≤ Int.log 2 ((a : ℚ) / b) :=
    (Int.zpow_le_iff_le_log (b := 2) (by norm_num) hq).mp (by exact_mod_cast hqge)
  have hle : (2 : ℚ) ^ Int.log 2 ((a : ℚ) / b) ≤ (a : ℚ) / b := by
    exact_mod_cast Int.zpow_log_le_self (b := 2) (r := (a : ℚ) / b) (by norm_num) hq
  unfold roundDouble
  rw [if_neg (ne_of_gt hq), abs_of_pos hq]
  generalize Int.log 2 ((a : ℚ) / b) = e at hlog1 hlog2 hle ⊢
  have hmax : max e (-1022) = e := max_eq_left (by omega)
  simp only [hmax]
  have hupos : (0 : ℚ) < 2 ^ (e - 52) := by positivity
  have hu2 : (2 : ℚ) ^ (e - 52) = 2 ^ e / 2 ^ 52 := by
    rw [zpow_sub₀ two_ne_zero]
    norm_cast
  obtain ⟨n, hn⟩ : ∃ n : ℕ, 52 - e = (n : ℤ) := ⟨(52 - e).toNat, by omega⟩
  have hN : ((2 : ℚ) ^ (e - 52))⁻¹ = ((2 ^ n : ℤ) : ℚ) := by
    rw [← zpow_neg, neg_sub, hn, zpow_natCast]
    push_cast
    rfl
  generalize (2 : ℚ) ^ (e - 52) = u at hupos hu2 hN ⊢
  have hk1 : ((a / b : ℕ) : ℚ) ≤ (a : ℚ) / b := Nat.cast_div_le
  have hk2 : (a : ℚ) / b + 1 / b ≤ ((a / b : ℕ) : ℚ) + 1 := by
    have h : a + 1 ≤ b * (a / b + 1) := Nat.lt_mul_div_succ a hb
    have h2 : (a : ℚ) + 1 ≤ b * (((a / b : ℕ) : ℚ) + 1) := by exact_mod_cast h
    rw [← add_div, div_le_iff₀ hbq]
    linarith
  generalize a / b = k at hk1 hk2 ⊢
  have hlow : (k : ℚ) ≤ roundHalfEven ((a : ℚ) / b / u) * u := by
    have h1 : ((k : ℤ) * 2 ^ n) ≤ ⌊(a : ℚ) / b / u⌋ := by
      rw [Int.le_floor, div_eq_mul_inv _ u, hN]
      push_cast
      exact mul_le_mul_of_nonneg_right hk1 (by positivity)
    have h2 := le_trans h1 (floor_le_roundHalfEven _)
    have h3 : (((k : ℤ) * 2 ^ n : ℤ) : ℚ) ≤ roundHalfEven ((a : ℚ) / b / u) := by
      exact_mod_cast h2
    have h4 : (((k : ℤ) * 2 ^ n : ℤ) : ℚ) * u = (k : ℚ) := by
      push_cast
      have hinv : ((2 : ℚ) ^ n) = u⁻¹ := by rw [hN]; push_cast; rfl
      rw [hinv, mul_assoc, inv_mul_cancel₀ (ne_of_gt hupos), mul_one]
    calc (k : ℚ) = (((k : ℤ) * 2 ^ n : ℤ) : ℚ) * u := h4.symm
      _ ≤ roundHalfEven ((a : ℚ) / b / u) * u := mul_le_mul_of_nonneg_right h3 (le_of_lt hupos)
  have hhigh : (roundHalfEven ((a : ℚ) / b / u) : ℚ) * u < (k : ℚ) + 1 := by
    have h1 := roundHalfEven_le ((a : ℚ) / b / u)
    have h2 : (roundHalfEven ((a : ℚ) / b / u) : ℚ) * u ≤ ((a : ℚ) / b / u + 1 / 2) * u :=
      mul_le_mul_of_nonneg_right h1 (le_of_lt hupos)
    have h3 : ((a : ℚ) / b / u + 1 / 2) * u = (a : ℚ) / b + u / 2 := by
      rw [add_mul, div_mul_cancel₀ _ (ne_of_gt hupos)]
      ring
    have h4 : u / 2 < 1 / b := by
      have h5 : u ≤ (a : ℚ) / b / 2 ^ 52 := by
        rw [hu2]
        exact div_le_div_of_nonneg_right hle (by positivity)
      have h6 : (a : ℚ) / b / 2 ^ 52 / 2 < 1 / b := by
        rw [div_div, div_div, div_lt_div_iff₀ (by positivity) hbq]
        nlinarith
      linarith
    linarith
  rw [Nat.floor_eq_iff (le_trans (Nat.cast_nonneg _) hlow)]
  exact ⟨hlow, hhigh⟩

theorem floorDiv_large : floorDiv 553468892355352768 3600 = 153741358987598 := by
  unfold floorDiv
  have h := roundDouble_eq ((553468892355352768 : ℕ) / (3600 : ℕ) : ℚ) 47 4919723487603136
    (by norm_num) (by norm_num) (by norm_num) (by norm_num) (by norm_num)
  rw [h]
  norm_num

theorem timeString_eq_clockText (r : Nat) (hr : r < 2 ^ 53) : timeString r = clockText r := by
  have hm : r % 3600 < 2 ^ 53 := lt_of_le_of_lt (Nat.mod_le _ _) hr
  simp only [timeString, clockText, padStart_two,
    floorDiv_exact r 3600 hr (by norm_num) (by norm_num),
    floorDiv_exact (r % 3600) 60 hm (by norm_num) (by norm_num)]

theorem hours_below_bound (r : Nat) (hr : r < 2 ^ 53) : floorDiv r 3600 < 2 ^ 53 := by
  rw [floorDiv_exact r 3600 hr (by norm_num) (by norm_num)]
  exact lt_of_le_of_lt (Nat.div_le_self _ _) hr

theorem updateTimer_text (n : Nat) (s : State) (hhours : floorDiv n 3600 < 2 ^ 53) :
    (updateTimer (some (.num (.fin (n : ℚ)))) s).state.remainingTime
      = s.remainingTime.map (fun _ => TimerText.hms (timeString n)) := by
  unfold updateTimer
  simp only [valThrows, convThrows, natOf_natCast, hhours, if_true]
  simp only [Bool.false_eq_true, if_false]
  split
  · rfl
  · split
    · rfl
    · split
      · rfl
      · split <;> rfl

/-- C9 as stated fails: 553468892355352768 is a non-negative integer (and a
double), `floor(r / 3600)` is 153741358987597, but the double nearest to the
quotient is 153741358987598, so `updateTimer` writes the hours one too high. -/
theorem timer_text_counterexample :
    (updateTimer (some (.num (.fin ((553468892355352768 : ℕ) : ℚ))))
        State.pageLoad).state.remainingTime
      = some (TimerText.hms "153741358987598:59:28")
    ∧ clockText 553468892355352768 = "153741358987597:59:28"
    ∧ roundDouble 553468892355352768 = 553468892355352768 := by
  have hts : timeString 553468892355352768 = "153741358987598:59:28" := by
    simp only [timeString, floorDiv_large, padStart_two,
      floorDiv_exact (553468892355352768 % 3600) 60 (by norm_num) (by norm_num)
        (by norm_num)]
    decide
  refine ⟨?_, by decide, ?_⟩
  · rw [updateTimer_text _ _ (by rw [floorDiv_large]; norm_num), hts]
    rfl
  · have h := roundDouble_eq (553468892355352768 : ℚ) 58 8647951443052387
      (by norm_num) (by norm_num) (by norm_num) (by norm_num) (by norm_num)
    rw [h]
    norm_num

/-- C9, amended: for a non-negative integer `r` below `2 ^ 53`, `updateTimer`
computes the text `HH:MM:SS` made of the decimal numerals of `floor(r / 3600)`,
`floor((r mod 3600) / 60)` and `r mod 60`, each padded with a zero to two
digits, and writes it to `#remaining-time` when the page has that element; the
minutes and seconds parts have exactly two characters. For 125 seconds the
text is `00:02:05`, also through `updateUI` for the snapshot with
`dryingActive` true and `remainingTime` 125. -/
theorem timer_text_is_clock (r : Nat) (s : State) (hr : r < 2 ^ 53) :
    timeString r = clockText r
    ∧ (updateTimer (some (.num (.fin (r : ℚ)))) s).state.remainingTime
        = s.remainingTime.map (fun _ => TimerText.hms (clockText r))
    ∧ (twoDigits (r % 3600 / 60)).length = 2
    ∧ (twoDigits (r % 60)).length = 2
    ∧ clockText 125 = "00:02:05"
    ∧ (updateUI "10:00:00"
          (snapshot (.num (.fin (452 / 10))) (.num (.fin 45)) (.num (.fin (301 / 10)))
            (.num (.fin 60)) (.bool true) (.num (.fin 125)))
          (initCharts State.pageLoad)).state.remainingTime
        = some (TimerText.hms "00:02:05") := by
  refine ⟨timeString_eq_clockText r hr, ?_, ?_, ?_, by decide, ?_⟩
  · rw [updateTimer_text r s (hours_below_bound r hr), timeString_eq_clockText r hr]
  · exact length_twoDigits _ (by omega)
  · exact length_twoDigits _ (by omega)
  · have ht : ∀ S : State,
        (updateTimer (some (.num (.fin 125))) S).state.remainingTime
          = S.remainingTime.map (fun _ => TimerText.hms "00:02:05") := by
      intro S
      have h := updateTimer_text 125 S (hours_below_bound 125 (by norm_num))
      rw [timeString_eq_clockText 125 (by norm_num)] at h
      have hclock : clockText 125 = "00:02:05" := by decide
      rw [hclock] at h
      simpa using h
    simp [updateUI, snapshot, getField, ownProperty, toFixed1, State.pageLoad, initCharts,
      valThrows, convThrows, updateCharts, updateTimerPanel, truthy, ht]

theorem timer_text_is_clock_witness :
    7325 < 2 ^ 53
    ∧ (updateTimer (some (.num (.fin ((7325 : ℕ) : ℚ)))) State.pageLoad).state.remainingTime
        = State.pageLoad.remainingTime.map (fun _ => TimerText.hms (clockText 7325))
    ∧ clockText 7325 = "02:02:05" :=
  ⟨by norm_num, (timer_text_is_clock 7325 State.pageLoad (by norm_num)).2.1, by decide⟩

/-! ### Projection of a snapshot -/

theorem updateCharts_obj (timestamp : String) (fields : List (String × Json)) (s : State) :
    updateCharts timestamp (.obj fields) s
      = { state :=
            match s.temperatureChart, s.humidityChart with
            | some tc, some hc =>
              { s with
                temperatureChart := some
                  { labels := pushShift tc.labels timestamp
                    actual := pushShift tc.actual (ownProperty fields "temperature")
                    target := pushShift tc.target (ownProperty fields "targetTemperature") }
                humidityChart := some
                  { labels := pushShift hc.labels timestamp
                    data := pushShift hc.data (ownProperty fields "humidity") } }
            | _, _ => s
          outcome := .returned } := by
  unfold updateCharts
  cases s.temperatureChart <;> cases s.humidityChart <;> simp [getField]

theorem updateTimerPanel_obj (fields : List (String × Json)) (s : State) :
    (updateTimerPanel (.obj fields) s).state.timerPanel
        = s.timerPanel.map
            (fun _ => if truthy (ownProperty fields "dryingActive") then "block" else "none")
      ∧ (updateTimerPanel (.obj fields) s).state.currentTemp = s.currentTemp
      ∧ (updateTimerPanel (.obj fields) s).state.currentHumidity = s.currentHumidity
      ∧ (updateTimerPanel (.obj fields) s).state.targetTemp = s.targetTemp
      ∧ (updateTimerPanel (.obj fields) s).state.heaterPower = s.heaterPower
      ∧ (updateTimerPanel (.obj fields) s).state.temperatureChart = s.temperatureChart
      ∧ (updateTimerPanel (.obj fields) s).state.humidityChart = s.humidityChart := by
  unfold updateTimerPanel
  cases hp : s.timerPanel with
  | none => simp [hp]
  | some panel =>
    simp only [getField, Option.map_some']
    by_cases hact : truthy (ownProperty fields "dryingActive") = true
    · simp only [hact, if_true]
      obtain ⟨rt, pb, h⟩ := updateTimer_frame (ownProperty fields "remainingTime")
        { s with timerPanel := some "block" }
      rw [h]
      exact ⟨rfl, rfl, rfl, rfl, rfl, rfl, rfl⟩
    · simp [hact]

/-- What `updateUI` does for a snapshot object whose three temperature and
humidity fields are numbers and whose heater power converts to a string, or
need not be converted because the page has no `#heater-power`: every step
runs. -/
theorem updateUI_complete (timestamp : String) (fields : List (String × Json)) (s : State)
    (t h tt : JsNum)
    (ht : ownProperty fields "temperature" = some (.num t))
    (hh : ownProperty fields "humidity" = some (.num h))
    (htt : ownProperty fields "targetTemperature" = some (.num tt))
    (hpower : (s.heaterPower.isSome && valThrows (ownProperty fields "heaterPower")) = false) :
    (updateUI timestamp (.obj fields) s).state.currentTemp
        = s.currentTemp.map (fun _ => Content.fixed1 t)
    ∧ (updateUI timestamp (.obj fields) s).state.currentHumidity
        = s.currentHumidity.map (fun _ => Content.fixed1 h)
    ∧ (updateUI timestamp (.obj fields) s).state.targetTemp
        = s.targetTemp.map (fun _ => Content.fixed1 tt)
    ∧ (updateUI timestamp (.obj fields) s).state.heaterPower
        = s.heaterPower.map (fun _ => Content.value (ownProperty fields "heaterPower"))
    ∧ (updateUI timestamp (.obj fields) s).state.temperatureChart
        = (updateCharts timestamp (.obj fields) s).state.temperatureChart
    ∧ (updateUI timestamp (.obj fields) s).state.humidityChart
        = (updateCharts timestamp (.obj fields) s).state.humidityChart
    ∧ (updateUI timestamp (.obj fields) s).state.timerPanel
        = s.timerPanel.map
            (fun _ => if truthy (ownProperty fields "dryingActive") then "block" else "none") := by
  unfold updateUI
  simp only [getField, ht, hh, htt, toFixed1, hpower, Bool.false_eq_true, if_false]
  rw [updateCharts_obj]
  simp only []
  have hpanel := updateTimerPanel_obj fields
  cases htc : s.temperatureChart <;> cases hhc : s.humidityChart <;>
    simp only [updateCharts_obj, htc, hhc] <;>
    refine ⟨(hpanel _).2.1, (hpanel _).2.2.1, (hpanel _).2.2.2.1, (hpanel _).2.2.2.2.1,
      ?_, ?_, (hpanel _).1⟩ <;>
    first
      | rw [(hpanel _).2.2.2.2.2.1]
      | rw [(hpanel _).2.2.2.2.2.2]

theorem dataSeries_congr (s t : State) (htc : s.temperatureChart = t.temperatureChart)
    (hhc : s.humidityChart = t.humidityChart) : dataSeries s = dataSeries t := by
  simp only [dataSeries, htc, hhc]

theorem dataSeries_updateCharts_obj (timestamp : String) (fields : List (String × Json))
    (s : State) :
    dataSeries (updateCharts timestamp (.obj fields) s).state
      = (dataSeries s).map (fun d =>
          (pushShift d.1 (ownProperty fields "temperature"),
           pushShift d.2.1 (ownProperty fields "targetTemperature"),
           pushShift d.2.2 (ownProperty fields "humidity"))) := by
  rw [updateCharts_obj]
  cases htc : s.temperatureChart <;> cases hhc : s.humidityChart <;>
    simp [dataSeries, htc, hhc]

theorem toFixed1_of_not_number (v : JsVal) (h : isNumber v = false) :
    toFixed1 (some v) = none := by
  cases v with
  | none => rfl
  | some j => cases j <;> simp_all [isNumber, toFixed1]

theorem toFixed1_num (x : JsNum) : toFixed1 (some (some (.num x))) = some (.fixed1 x) :=
  rfl

/-- C8 as stated fails: for the example snapshot without `temperature`, on a
page with every element and both charts, `updateUI` throws at its first
statement: no status field is written, no point is appended to a rolling
buffer and the timer panel is not shown although `dryingActive` is true. -/
theorem missing_field_counterexample :
    (updateUI "10:00:00" snapshotWithoutTemperature (initCharts State.pageLoad)).outcome
        = .threw
    ∧ (updateUI "10:00:00" snapshotWithoutTemperature (initCharts State.pageLoad)).state.currentHumidity
        = some Content.initial
    ∧ (updateUI "10:00:00" snapshotWithoutTemperature (initCharts State.pageLoad)).state.targetTemp
        = some Content.initial
    ∧ (updateUI "10:00:00" snapshotWithoutTemperature (initCharts State.pageLoad)).state.heaterPower
        = some Content.initial
    ∧ dataSeries (updateUI "10:00:00" snapshotWithoutTemperature
          (initCharts State.pageLoad)).state
        = dataSeries (initCharts State.pageLoad)
    ∧ (updateUI "10:00:00" snapshotWithoutTemperature (initCharts State.pageLoad)).state.timerPanel
        = some "" :=
  ⟨rfl, rfl, rfl, rfl, rfl, rfl⟩

/-- C8, amended: for a snapshot object, `updateUI` throws at the first of
`temperature`, `humidity`, `targetTemperature` (in this order) that is missing
or not a number; the status fields before it are written and nothing after it
is changed. When the three are numbers but the heater power cannot be
converted to a string for `#heater-power`, it throws there, after the three
status fields. In every other case (so whenever `heaterPower` is missing, a
number or a string) every step runs: the four status fields are written, one
point is appended to each data series when the charts exist, and the timer
panel is shown or hidden according to `dryingActive`. -/
theorem missing_field_stops_projection (timestamp : String)
    (fields : List (String × Json)) (s : State) :
    (isNumber (ownProperty fields "temperature") = false →
      updateUI timestamp (.obj fields) s = { state := s, outcome := .threw })
    ∧ (∀ t : JsNum, ownProperty fields "temperature" = some (.num t) →
        isNumber (ownProperty fields "humidity") = false →
        updateUI timestamp (.obj fields) s
          = { state := { s with currentTemp := s.currentTemp.map (fun _ => Content.fixed1 t) }
              outcome := .threw })
    ∧ (∀ t h : JsNum, ownProperty fields "temperature" = some (.num t) →
        ownProperty fields "humidity" = some (.num h) →
        isNumber (ownProperty fields "targetTemperature") = false →
        updateUI timestamp (.obj fields) s
          = { state :=
                { s with
                  currentTemp := s.currentTemp.map (fun _ => Content.fixed1 t)
                  currentHumidity := s.currentHumidity.map (fun _ => Content.fixed1 h) }
              outcome := .threw })
    ∧ (∀ t h tt : JsNum, ownProperty fields "temperature" = some (.num t) →
        ownProperty fields "humidity" = some (.num h) →
        ownProperty fields "targetTemperature" = some (.num tt) →
        s.heaterPower.isSome = true →
        valThrows (ownProperty fields "heaterPower") = true →
        updateUI timestamp (.obj fields) s
          = { state :=
                { s with
                  currentTemp := s.currentTemp.map (fun _ => Content.fixed1 t)
                  currentHumidity := s.currentHumidity.map (fun _ => Content.fixed1 h)
                  targetTemp := s.targetTemp.map (fun _ => Content.fixed1 tt) }
              outcome := .threw })
    ∧ (∀ t h tt : JsNum, ownProperty fields "temperature" = some (.num t) →
        ownProperty fields "humidity" = some (.num h) →
        ownProperty fields "targetTemperature" = some (.num tt) →
        (s.heaterPower.isSome && valThrows (ownProperty fields "heaterPower")) = false →
        (updateUI timestamp (.obj fields) s).state.currentTemp
            = s.currentTemp.map (fun _ => Content.fixed1 t)
          ∧ (updateUI timestamp (.obj fields) s).state.currentHumidity
            = s.currentHumidity.map (fun _ => Content.fixed1 h)
          ∧ (updateUI timestamp (.obj fields) s).state.targetTemp
            = s.targetTemp.map (fun _ => Content.fixed1 tt)
          ∧ (updateUI timestamp (.obj fields) s).state.heaterPower
            = s.heaterPower.map (fun _ => Content.value (ownProperty fields "heaterPower"))
          ∧ dataSeries (updateUI timestamp (.obj fields) s).state
            = (dataSeries s).map (fun d =>
                (pushShift d.1 (some (.num t)), pushShift d.2.1 (some (.num tt)),
                 pushShift d.2.2 (some (.num h))))
          ∧ (updateUI timestamp (.obj fields) s).state.timerPanel
            = s.timerPanel.map (fun _ =>
                if truthy (ownProperty fields "dryingActive") then "block" else "none"))
    ∧ (ownProperty fields "heaterPower" = none
        ∨ (∃ x : JsNum, ownProperty fields "heaterPower" = some (.num x))
        ∨ (∃ text : String, ownProperty fields "heaterPower" = some (.str text)) →
        (s.heaterPower.isSome && valThrows (ownProperty fields "heaterPower")) = false) := by
  refine ⟨?_, ?_, ?_, ?_, ?_, ?_⟩
  · intro h1
    unfold updateUI
    simp only [getField, toFixed1_of_not_number _ h1]
  · intro t ht h2
    unfold updateUI
    simp only [getField, ht, toFixed1_num, toFixed1_of_not_number _ h2]
  · intro t h ht hh h3
    unfold updateUI
    simp only [getField, ht, hh, toFixed1_num, toFixed1_of_not_number _ h3]
  · intro t h tt ht hh htt hel hthrows
    unfold updateUI
    simp only [getField, ht, hh, htt, toFixed1_num, hel, hthrows, Bool.and_self, if_true]
  · intro t h tt ht hh htt hpower
    have hc := updateUI_complete timestamp fields s t h tt ht hh htt hpower
    refine ⟨hc.1, hc.2.1, hc.2.2.1, hc.2.2.2.1, ?_, hc.2.2.2.2.2.2⟩
    rw [dataSeries_congr _ _ hc.2.2.2.2.1 hc.2.2.2.2.2.1, dataSeries_updateCharts_obj,
      ht, hh, htt]
  · rintro (h | ⟨x, h⟩ | ⟨text, h⟩) <;> rw [h] <;> simp [valThrows, convThrows]

theorem missing_field_stops_projection_witness :
    updateUI "10:00:00" snapshotWithoutTemperature (initCharts State.pageLoad)
      = { state := initCharts State.pageLoad, outcome := .threw } :=
  (missing_field_stops_projection "10:00:00" _ (initCharts State.pageLoad)).1 rfl

theorem updateUI_inactive_outcome (timestamp : String) (fields : List (String × Json))
    (s : State) (t h tt : JsNum)
    (ht : ownProperty fields "temperature" = some (.num t))
    (hh : ownProperty fields "humidity" = some (.num h))
    (htt : ownProperty fields "targetTemperature" = some (.num tt))
    (hpower : valThrows (ownProperty fields "heaterPower") = false)
    (hact : truthy (ownProperty fields "dryingActive") = false) :
    (updateUI timestamp (.obj fields) s).outcome = .returned := by
  unfold updateUI
  simp only [getField, ht, hh, htt, toFixed1, hpower, Bool.and_false, Bool.false_eq_true,
    if_false]
  rw [updateCharts_obj]
  simp only []
  unfold updateTimerPanel
  split
  · rfl
  · simp [getField, hact]

theorem ownProperty_snapshot (temperature targetTemperature humidity heaterPower
    dryingActive remainingTime : Json) :
    ownProperty [("temperature", temperature), ("targetTemperature", targetTemperature),
        ("humidity", humidity), ("heaterPower", heaterPower),
        ("dryingActive", dryingActive), ("remainingTime", remainingTime)] "temperature"
      = some temperature
    ∧ ownProperty [("temperature", temperature), ("targetTemperature", targetTemperature),
        ("humidity", humidity), ("heaterPower", heaterPower),
        ("dryingActive", dryingActive), ("remainingTime", remainingTime)] "targetTemperature"
      = some targetTemperature
    ∧ ownProperty [("temperature", temperature), ("targetTemperature", targetTemperature),
        ("humidity", humidity), ("heaterPower", heaterPower),
        ("dryingActive", dryingActive), ("remainingTime", remainingTime)] "humidity"
      = some humidity
    ∧ ownProperty [("temperature", temperature), ("targetTemperature", targetTemperature),
        ("humidity", humidity), ("heaterPower", heaterPower),
        ("dryingActive", dryingActive), ("remainingTime", remainingTime)] "heaterPower"
      = some heaterPower
    ∧ ownProperty [("temperature", temperature), ("targetTemperature", targetTemperature),
        ("humidity", humidity), ("heaterPower", heaterPower),
        ("dryingActive", dryingActive), ("remainingTime", remainingTime)] "dryingActive"
      = some dryingActive := by
  refine ⟨?_, ?_, ?_, ?_, ?_⟩ <;> simp [ownProperty]

/-- C10: for a device snapshot (numbers for the temperatures and the humidity,
a heater power that converts to a string) with `dryingActive` false, whatever
the state of the page, the charts and the profile cards, `updateUI` returns and
leaves the timer panel, where the page has one, with `display` set to
`none`. -/
theorem inactive_snapshot_hides_timer (timestamp : String) (t tt h : JsNum)
    (power remaining : Json) (s : State) (hpower : convThrows power = false) :
    (updateUI timestamp
        (snapshot (.num t) (.num tt) (.num h) power (.bool false) remaining) s).state.timerPanel
      = s.timerPanel.map (fun _ => "none")
    ∧ (updateUI timestamp
        (snapshot (.num t) (.num tt) (.num h) power (.bool false) remaining) s).outcome
      = .returned := by
  have hown := ownProperty_snapshot (.num t) (.num tt) (.num h) power (.bool false) remaining
  have hp : valThrows (ownProperty [("temperature", Json.num t),
      ("targetTemperature", .num tt), ("humidity", .num h), ("heaterPower", power),
      ("dryingActive", .bool false), ("remainingTime", remaining)] "heaterPower") = false := by
    rw [hown.2.2.2.1]
    exact hpower
  have hact : truthy (ownProperty [("temperature", Json.num t),
      ("targetTemperature", .num tt), ("humidity", .num h), ("heaterPower", power),
      ("dryingActive", .bool false), ("remainingTime", remaining)] "dryingActive") = false := by
    rw [hown.2.2.2.2]
    rfl
  refine ⟨?_, ?_⟩
  · rw [snapshot, (updateUI_complete timestamp _ s t h tt hown.1 hown.2.2.1 hown.2.1
      (by rw [hp]; exact Bool.and_false _)).2.2.2.2.2.2, hact]
    rfl
  · rw [snapshot]
    exact updateUI_inactive_outcome timestamp _ s t h tt hown.1 hown.2.2.1 hown.2.1 hp hact

theorem inactive_snapshot_hides_timer_witness :
    (updateUI "10:00:00"
        (snapshot (.num (.fin 25)) (.num (.fin 0)) (.num (.fin 40)) (.num (.fin 0))
          (.bool false) (.num (.fin 0)))
        { initCharts State.pageLoad with timerPanel := some "block" }).state.timerPanel
      = some "none" :=
  (inactive_snapshot_hides_timer "10:00:00" (.fin 25) (.fin 0) (.fin 40) (.num (.fin 0))
    (.num (.fin 0)) { initCharts State.pageLoad with timerPanel := some "block" } rfl).1

/-! ### Progress percentage -/

theorem progress_bounds (r d : ℚ) (hd : 0 < d) (h0 : 0 ≤ r) (hr : r ≤ d * 60) :
    0 ≤ progress r d ∧ progress r d ≤ 100
      ∧ (progress r d = 0 ↔ r = d * 60) ∧ (progress r d = 100 ↔ r = 0) := by
  have hT : 0 < d * 60 := by positivity
  have hne : d * 60 ≠ 0 := ne_of_gt hT
  have hq0 : 0 ≤ r / (d * 60) := div_nonneg h0 (le_of_lt hT)
  have hq1 : r / (d * 60) ≤ 1 := (div_le_one hT).mpr hr
  simp only [progress]
  refine ⟨by linarith, by linarith, ?_, ?_⟩
  · constructor
    · intro h
      have hone : r / (d * 60) = 1 := by linarith
      exact (div_eq_one_iff_eq hne).mp hone
    · intro h
      rw [h, div_self hne]
      norm_num
  · constructor
    · intro h
      have hzero : r / (d * 60) = 0 := by linarith
      rcases div_eq_zero_iff.mp hzero with h1 | h1
      · exact h1
      · exact absurd h1 hne
    · intro h
      rw [h]
      norm_num

theorem updateTimer_sets_percent (remainingSeconds duration : JsNum) (s : State)
    (bar : BarWidth) (profileIndex : Nat)
    (hbar : s.progressBar = some bar)
    (hactive : s.cards.findIdx? (fun active => active) = some profileIndex)
    (hduration : (getIndex s.profiles profileIndex).bind (fun p => getField p "duration")
      = some (some (.num duration))) :
    (updateTimer (some (.num remainingSeconds)) s).state.progressBar
      = some (.percent (some (.num remainingSeconds)) (some (.num duration))) := by
  unfold updateTimer
  simp only [valThrows, convThrows, Bool.false_eq_true, if_false, hbar, hactive, hduration]

/-- C11: when the page has the progress bar, the first active card is at
`profileIndex` and the profile at that index has the duration `D > 0` minutes,
`updateTimer` for an integer `r` with `0 ≤ r ≤ 60 * D` sets the width from the
operands `r` and `D`; the percentage `100 - (r / (D * 60)) * 100`, in exact
arithmetic, lies between 0 and 100, is 0 exactly when `r = 60 * D` and is 100
exactly when `r = 0`. -/
theorem progress_between_zero_and_hundred (D r profileIndex : Nat) (s : State)
    (bar : BarWidth) (hD : 0 < D) (hr : r ≤ 60 * D)
    (hbar : s.progressBar = some bar)
    (hactive : s.cards.findIdx? (fun active => active) = some profileIndex)
    (hduration : (getIndex s.profiles profileIndex).bind (fun p => getField p "duration")
      = some (some (.num (.fin (D : ℚ))))) :
    (updateTimer (some (.num (.fin (r : ℚ)))) s).state.progressBar
        = some (.percent (some (.num (.fin (r : ℚ)))) (some (.num (.fin (D : ℚ)))))
    ∧ BarWidth.value (.percent (some (.num (.fin (r : ℚ)))) (some (.num (.fin (D : ℚ)))))
        = some (100 - ((r : ℚ) / ((D : ℚ) * 60)) * 100)
    ∧ 0 ≤ progress r D
    ∧ progress r D ≤ 100
    ∧ (progress r D = 0 ↔ r = 60 * D)
    ∧ (progress r D = 100 ↔ r = 0) := by
  have hd : (0 : ℚ) < (D : ℚ) := by exact_mod_cast hD
  have hrq : (r : ℚ) ≤ (D : ℚ) * 60 := by
    have h : ((r : ℕ) : ℚ) ≤ ((60 * D : ℕ) : ℚ) := by exact_mod_cast hr
    push_cast at h
    linarith
  have hb := progress_bounds (r : ℚ) (D : ℚ) hd (by positivity) hrq
  have hne : (D : ℚ) * 60 ≠ 0 := by positivity
  refine ⟨updateTimer_sets_percent _ _ s bar profileIndex hbar hactive hduration, ?_,
    hb.1, hb.2.1, ?_, ?_⟩
  · simp only [BarWidth.value, hne, if_false, progress]
  · rw [hb.2.2.1]
    constructor
    · intro h
      have h2 : ((r : ℕ) : ℚ) = ((60 * D : ℕ) : ℚ) := by
        push_cast
        linarith
      exact_mod_cast h2
    · intro h
      rw [h]
      push_cast
      ring
  · rw [hb.2.2.2]
    exact_mod_cast Iff.rfl

theorem progress_between_zero_and_hundred_witness :
    (updateTimer (some (.num (.fin ((7200 : ℕ) : ℚ)))) State.dryingPLA).state.progressBar
        = some (.percent (some (.num (.fin ((7200 : ℕ) : ℚ))))
            (some (.num (.fin ((240 : ℕ) : ℚ)))))
    ∧ 0 ≤ progress ((7200 : ℕ) : ℚ) ((240 : ℕ) : ℚ)
    ∧ progress ((7200 : ℕ) : ℚ) ((240 : ℕ) : ℚ) ≤ 100 :=
  have h := progress_between_zero_and_hundred 240 7200 0 State.dryingPLA .initial
    (by decide) (by decide) rfl rfl (by simp [State.dryingPLA, fallbackProfiles, getIndex,
      getField, ownProperty])
  ⟨h.1, h.2.2.1, h.2.2.2.1⟩

end FilamentDryer
